import Mathlib

/-!
Verification development for the physics confetti engine
(`src/PhysicsConfettiEngine.ts` of `affectively-ai/confetti-physics`).

The engine is shallowly embedded: machine numbers are modelled by `ℚ`;
host and math primitives that the engine only consumes (`Math.random`,
`Math.cos`, `Math.sin`, `Math.sqrt`, `Math.log`, `Math.PI`, the viewport
size, and the two external field simulations from `@buley/hexgrid-3d`)
are abstracted as a `MathEnv` record of oracles.  The sequential
consumption of `Math.random()` is modelled by a running index `randIdx`
in the engine state; each call site reads `env.random` at the next index
in the textual evaluation order of the source.

The two external field objects (`StableFluids`, `FlowField2D`) are not
part of this repository; per their interface they are modelled as logs
of the operations the engine applies to them, with sampling supplied by
the environment oracles.

`setTimeout` callbacks scheduled by the recipes are modelled explicitly:
the engine state carries the list of pending (delay, job) pairs, and
`runScheduled` executes the body of such a callback.  The source never
stores the timer handles, so `clear` does not remove pending entries;
this is faithful to `clear()` at lines 1356-1373 of the source.
-/

/- Batteries marks the core rational arithmetic operations irreducible
as an elaboration optimization; restore the ordinary reducibility so
that closed-form evaluations of the model can go through `decide`. -/
set_option allowUnsafeReducibility true in
attribute [semireducible] Rat.add Rat.mul Rat.sub Rat.inv

namespace Confetti

/-- Particle shapes (source `PhysicsParticle.shape`). -/
inductive Shape
  | square
  | circle
  | star
  | heart
  | hexagon
  | spiral
deriving DecidableEq

/-- Attractor kinds (source `Attractor.type`). -/
inductive AttractorType
  | pull
  | push
  | orbit
  | vortex
deriving DecidableEq

/-- A confetti particle (source interface `PhysicsParticle`). -/
structure Particle where
  id : ℕ
  x : ℚ
  y : ℚ
  vx : ℚ
  vy : ℚ
  ax : ℚ
  ay : ℚ
  size : ℚ
  rotation : ℚ
  rotationVelocity : ℚ
  color : String
  opacity : ℚ
  life : ℚ
  maxLife : ℚ
  mass : ℚ
  shape : Shape
  trail : List (ℚ × ℚ × ℚ)
  pulsePhase : ℚ
  spiralAngle : Option ℚ
deriving DecidableEq

/-- A force attractor (source interface `Attractor`). -/
structure Attractor where
  x : ℚ
  y : ℚ
  strength : ℚ
  radius : ℚ
  type : AttractorType
deriving DecidableEq

/-- Operations applied to the external `StableFluids` object; the fluid
state is the log of operations since the last `clear()`. -/
inductive FluidOp
  | addForce (x y fx fy r : ℚ)
  | addDensity (x y amount r : ℚ)
  | step (dt : ℚ)
deriving DecidableEq

/-- Operations applied to the external `FlowField2D` object; the flow
state is the log of operations since the last `clear()`. -/
inductive FlowOp
  | addSource (x y vx vy r : ℚ)
  | update (dt : ℚ)
deriving DecidableEq

/-- The body of a `setTimeout` callback scheduled by a recipe:
the supernova secondary ring (line 378), a resonance fluid pulse
(line 499), one cascade particle spawn (line 591), or one emergence
particle spawn (line 641). -/
inductive Scheduled
  | supernovaSecondary (x y : ℚ) (count : ℕ) (colors : List String) (intensity : ℚ)
  | resonancePulse (x y : ℚ)
  | cascadeSpawn (colors : List String)
  | emergenceSpawn (x y : ℚ) (i : ℕ) (colors : List String)
deriving DecidableEq

/-- A pending `setTimeout`: requested delay in milliseconds plus the job. -/
structure PendingTimeout where
  delay : ℚ
  job : Scheduled
deriving DecidableEq

/-- Lissajous parameters stored by the harmony recipe:
(freqX, freqY, phaseX, phaseY). -/
abbrev LissajousParams := List (ℚ × ℚ × ℚ × ℚ)

/-- Engine session state (the private fields of `PhysicsConfettiEngine`
that take part in simulation; the canvas is render-only and omitted). -/
structure EngineState where
  particles : List Particle
  attractors : List Attractor
  fluid : List FluidOp
  flow : List FlowOp
  animationId : Option ℕ
  time : ℚ
  particleIdCounter : ℕ
  enabled : Bool
  prefersReducedMotion : Bool
  lissajous : Option LissajousParams
  pending : List PendingTimeout
  randIdx : ℕ
deriving DecidableEq

/-- Host environment and math oracles consumed by the engine. -/
structure MathEnv where
  random : ℕ → ℚ
  cos : ℚ → ℚ
  sin : ℚ → ℚ
  sqrt : ℚ → ℚ
  log : ℚ → ℚ
  pi : ℚ
  innerWidth : ℚ
  innerHeight : ℚ
  fluidVel : List FluidOp → ℚ → ℚ → ℚ × ℚ
  flowSample : List FlowOp → ℚ → ℚ → ℚ × ℚ

/-- Engine constant `gravity = 0.15`. -/
def gravity : ℚ := 3 / 20

/-- Engine constant `drag = 0.98`. -/
def drag : ℚ := 49 / 50

/-- Engine constant `fluidInfluence = 0.5`. -/
def fluidInfluence : ℚ := 1 / 2

/-- Engine constant `trailLength = 8`. -/
def trailLength : ℕ := 8

/-- The twelve recipe names (the cases of `PhysicsCelebrationType`). -/
def recipeNames : List String :=
  ["vortex", "supernova", "aurora", "resonance", "orbit", "cascade",
   "emergence", "harmony", "helix", "bloom", "constellation", "nebula"]

/-- Lookup into EMOTION_PALETTES (only the keys matter to the claims;
the palettes are carried verbatim). -/
def emotionPalette (e : String) : Option (List String) :=
  if e = "joy" then some ["#fbbf24", "#f59e0b", "#fcd34d", "#fef3c7", "#fff7ed"]
  else if e = "serenity" then some ["#10b981", "#34d399", "#6ee7b7", "#a7f3d0", "#d1fae5"]
  else if e = "excitement" then some ["#f43f5e", "#fb7185", "#fda4af", "#fbbf24", "#fcd34d"]
  else if e = "love" then some ["#ec4899", "#f472b6", "#f9a8d4", "#f43f5e", "#fb7185"]
  else if e = "triumph" then some ["#a855f7", "#c084fc", "#d8b4fe", "#fbbf24", "#fcd34d"]
  else if e = "gratitude" then some ["#14b8a6", "#2dd4bf", "#5eead4", "#99f6e4", "#10b981"]
  else if e = "wonder" then some ["#0ea5e9", "#38bdf8", "#7dd3fc", "#bae6fd", "#a855f7"]
  else if e = "peace" then some ["#10b981", "#14b8a6", "#2dd4bf", "#5eead4", "#a7f3d0"]
  else if e = "default" then some ["#10b981", "#34d399", "#14b8a6", "#2dd4bf", "#fbbf24"]
  else none

/-- Brand palette BRAND_COLORS.emerald. -/
def brandEmerald : List String := ["#10b981", "#34d399", "#6ee7b7", "#a7f3d0"]

/-- Brand palette BRAND_COLORS.teal. -/
def brandTeal : List String := ["#14b8a6", "#2dd4bf", "#5eead4", "#99f6e4"]

/-- Source method getColorsForEmotion (lines 1348-1353). -/
def getColorsForEmotion (emotion : Option String) : List String :=
  match emotion with
  | some e =>
    match emotionPalette e.toLower with
    | some pal => pal
    | none => brandEmerald ++ brandTeal
  | none => brandEmerald ++ brandTeal

/-- The number of iterations of a JS loop `for (let i = 0; i < L; i++)`
with a (possibly fractional) bound `L`: the number of naturals below `L`. -/
def natsBelow (q : ℚ) : ℕ := if q ≤ 0 then 0 else ⌈q⌉.toNat

/-- Partial particle data passed to `addParticle`
(`Partial<PhysicsParticle>`); absent fields default inside `addParticle`. -/
structure PConfig where
  x : Option ℚ := none
  y : Option ℚ := none
  vx : Option ℚ := none
  vy : Option ℚ := none
  size : Option ℚ := none
  color : Option String := none
  life : Option ℚ := none
  shape : Option Shape := none
  mass : Option ℚ := none
  pulsePhase : Option ℚ := none
  spiralAngle : Option ℚ := none
deriving DecidableEq

/-- JS `Map.set` semantics on the id-keyed particle collection: replace
in place if the key is present, append otherwise. -/
def setParticle (ps : List Particle) (p : Particle) : List Particle :=
  if ps.any (fun q => q.id = p.id) then
    ps.map (fun q => if q.id = p.id then p else q)
  else ps ++ [p]

/-- Advance only the random-stream index (used when a call site consumes
`m` values of `Math.random()` before calling `addParticle`). -/
def bump (s : EngineState) (m : ℕ) : EngineState :=
  { s with randIdx := s.randIdx + m }

/-- The particle record built by `addParticle` (lines 900-922).  The
object literal consumes `Math.random()` for `rotation`, then
`rotationVelocity`, then (only when the config does not supply one)
`pulsePhase`. -/
def newParticle (env : MathEnv) (cfg : PConfig) (s : EngineState) : Particle :=
  { id := s.particleIdCounter
    x := cfg.x.getD 0
    y := cfg.y.getD 0
    vx := cfg.vx.getD 0
    vy := cfg.vy.getD 0
    ax := 0
    ay := 0
    size := cfg.size.getD 8
    rotation := env.random s.randIdx * env.pi * 2
    rotationVelocity := (env.random (s.randIdx + 1) - 1/2) * (1/5)
    color := cfg.color.getD "#10b981"
    opacity := 1
    life := cfg.life.getD 150
    maxLife := cfg.life.getD 150
    mass := cfg.mass.getD 1
    shape := cfg.shape.getD Shape.square
    trail := []
    pulsePhase :=
      match cfg.pulsePhase with
      | some p => p
      | none => env.random (s.randIdx + 2) * env.pi * 2
    spiralAngle := cfg.spiralAngle }

/-- Source method addParticle (lines 900-925): take the next id, build the particle,
store it under its id. -/
def addParticle (env : MathEnv) (cfg : PConfig) (s : EngineState) : EngineState :=
  let p := newParticle env cfg s
  { s with
    particles := setParticle s.particles p
    particleIdCounter := s.particleIdCounter + 1
    randIdx := s.randIdx + (if cfg.pulsePhase.isSome then 2 else 3) }

/-- The force magnitude computed for an in-range attractor
(line 953: `strength * falloff * falloff / (dist * dist + 100)`). -/
def forceMagFormula (a : Attractor) (dist : ℚ) : ℚ :=
  a.strength * (1 - dist / a.radius) * (1 - dist / a.radius) / (dist * dist + 100)

/-- The (ax, ay) contribution of one attractor to one particle in
`updateParticle` (lines 946-988), given the distance value the source
computes with `Math.sqrt`. -/
def attractorContrib (a : Attractor) (px py dist : ℚ) : ℚ × ℚ :=
  let dx := a.x - px
  let dy := a.y - py
  if dist < a.radius ∧ 1/10 < dist then
    let forceMag := forceMagFormula a dist
    match a.type with
    | AttractorType.pull => (dx / dist * forceMag, dy / dist * forceMag)
    | AttractorType.push => (-(dx / dist * forceMag), -(dy / dist * forceMag))
    | AttractorType.orbit =>
        (-dy / dist * forceMag * (7/10) + dx / dist * forceMag * (3/10),
         dx / dist * forceMag * (7/10) + dy / dist * forceMag * (3/10))
    | AttractorType.vortex =>
        (-dy / dist * forceMag * (8/10) + dx / dist * forceMag * (5/10),
         dx / dist * forceMag * (8/10) + dy / dist * forceMag * (5/10))
  else (0, 0)

/-- The attractor loop of `updateParticle`: accumulate each contribution
into the acceleration. -/
def applyAttractors (env : MathEnv) (atts : List Attractor) (p : Particle) : Particle :=
  atts.foldl
    (fun q a =>
      let dx := a.x - q.x
      let dy := a.y - q.y
      let c := attractorContrib a q.x q.y (env.sqrt (dx * dx + dy * dy))
      { q with ax := q.ax + c.1, ay := q.ay + c.2 })
    p

/-- The first stage of updateParticle (lines 930-943): push the current
position onto the bounded trail and reset acceleration to gravity. -/
def trailPush (p : Particle) : Particle :=
  let trail1 := (p.x, p.y, p.opacity) :: p.trail
  { p with
    trail := if trailLength < trail1.length then trail1.dropLast else trail1
    ax := 0
    ay := gravity * p.mass }

/-- Source method updateParticle (lines 928-1038): trail push, gravity reset,
attractor forces, fluid and flow sampling, integration, drag, rotation,
spiral angle, life decrement, opacity recompute, size pulse. -/
def updateParticle (env : MathEnv) (s : EngineState) (dt : ℚ) (p : Particle) : Particle :=
  let p1 := trailPush p
  let p2 := applyAttractors env s.attractors p1
  let fv := env.fluidVel s.fluid (p2.x / 20) (p2.y / 20)
  let p3 := { p2 with
    vx := p2.vx + fv.1 * fluidInfluence * dt
    vy := p2.vy + fv.2 * fluidInfluence * dt }
  let wv := env.flowSample s.flow p3.x p3.y
  let p4 := { p3 with
    vx := p3.vx + wv.1 * (1/10) * dt
    vy := p3.vy + wv.2 * (1/10) * dt }
  let p5 := { p4 with
    vx := (p4.vx + p4.ax * dt) * drag
    vy := (p4.vy + p4.ay * dt) * drag }
  let p6 := { p5 with
    x := p5.x + p5.vx * dt
    y := p5.y + p5.vy * dt
    rotation := p5.rotation + p5.rotationVelocity
    spiralAngle := p5.spiralAngle.map (fun a => a + 1/50) }
  let newLife := p6.life - dt
  let p7 := { p6 with life := newLife, opacity := min 1 (newLife / p6.maxLife * 2) }
  let pulseScale := 1 + env.sin (s.time * (1/10) + p7.pulsePhase) * (3/20)
  { p7 with size := p7.size *
      (pulseScale / (pulseScale - (3/20) * env.sin (s.time * (1/10) + p7.pulsePhase - 1/10))) }

end Confetti

namespace Confetti

/-- Iterate a JS `for (let i = 0; i < n; i++)` loop body over the state. -/
def iterFor (n : ℕ) (body : ℕ → EngineState → EngineState) (s : EngineState) : EngineState :=
  (List.range n).foldl (fun t i => body i t) s

/-- Color selection `colors[i % colors.length]`; an out-of-range access
(empty list) yields `undefined`, which `addParticle` replaces by the
default color, so it is modelled as an `Option`. -/
def colorAt (colors : List String) (i : ℕ) : Option String :=
  colors.get? (i % colors.length)

/-- Loop body of createVortex (lines 314-335): ring position with
tangential velocity. -/
def vortexBody (env : MathEnv) (x y : ℚ) (count : ℕ) (colors : List String)
    (i : ℕ) (t : EngineState) : EngineState :=
  let angle := (i : ℚ) / (count : ℚ) * env.pi * 2 + env.random t.randIdx * (3/10)
  let radius := 150 + env.random (t.randIdx + 1) * 200
  let tangentAngle := angle + env.pi / 2
  let speed := 3 + env.random (t.randIdx + 2) * 3
  addParticle env
    { x := some (x + env.cos angle * radius)
      y := some (y + env.sin angle * radius)
      vx := some (env.cos tangentAngle * speed)
      vy := some (env.sin tangentAngle * speed)
      color := colorAt colors i
      size := some (6 + env.random (t.randIdx + 3) * 8)
      life := some (200 + env.random (t.randIdx + 4) * 150)
      shape := some (if 7/10 < env.random (t.randIdx + 5) then Shape.star else Shape.square)
      mass := some 1 }
    (bump t 6)

/-- Loop body of the synchronous supernova burst (lines 360-375). -/
def supernovaBurstBody (env : MathEnv) (x y : ℚ) (colors : List String)
    (intensity : ℚ) (i : ℕ) (t : EngineState) : EngineState :=
  let angle := env.random t.randIdx * env.pi * 2
  let speed := (15 + env.random (t.randIdx + 1) * 20) * intensity
  addParticle env
    { x := some x
      y := some y
      vx := some (env.cos angle * speed)
      vy := some (env.sin angle * speed)
      color := colorAt colors i
      size := some (4 + env.random (t.randIdx + 2) * 6)
      life := some (80 + env.random (t.randIdx + 3) * 60)
      shape := some Shape.circle
      mass := some (1/2) }
    (bump t 4)

/-- Loop body of the delayed supernova secondary ring (lines 379-394). -/
def supernovaSecondaryBody (env : MathEnv) (x y : ℚ) (colors : List String)
    (intensity : ℚ) (i : ℕ) (t : EngineState) : EngineState :=
  let angle := env.random t.randIdx * env.pi * 2
  let speed := (5 + env.random (t.randIdx + 1) * 10) * intensity
  addParticle env
    { x := some x
      y := some y
      vx := some (env.cos angle * speed)
      vy := some (env.sin angle * speed)
      color := colorAt colors (i + 2)
      size := some (8 + env.random (t.randIdx + 2) * 10)
      life := some (150 + env.random (t.randIdx + 3) * 100)
      shape := some Shape.star
      mass := some (3/2) }
    (bump t 4)

/-- Loop body of createAurora (lines 429-444): one ribbon particle. -/
def auroraBody (env : MathEnv) (ribbon : ℕ) (colors : List String) (height : ℚ)
    (_i : ℕ) (t : EngineState) : EngineState :=
  let baseY := height * (3/20 + (ribbon : ℚ) * (1/4))
  let px := env.random t.randIdx * env.innerWidth
  let py := baseY + (env.random (t.randIdx + 1) - 1/2) * 60
  addParticle env
    { x := some px
      y := some py
      vx := some (1 + env.random (t.randIdx + 2) * 2)
      vy := some (env.sin (px * (1/100) + (ribbon : ℚ)) * (1/2))
      color := colorAt colors ribbon
      size := some (10 + env.random (t.randIdx + 3) * 15)
      life := some (300 + env.random (t.randIdx + 4) * 200)
      shape := some Shape.circle
      mass := some (4/5) }
    (bump t 5)

/-- Loop body of createResonance (lines 476-493): one ring particle
(stationary, staggered pulse phase). -/
def resonanceBody (env : MathEnv) (x y : ℚ) (ring count : ℕ) (colors : List String)
    (i : ℕ) (t : EngineState) : EngineState :=
  let particlesInRing := count / 4
  let ringRadius : ℚ := 50 + (ring : ℚ) * 40
  let angle := (i : ℚ) / (particlesInRing : ℚ) * env.pi * 2
  addParticle env
    { x := some (x + env.cos angle * ringRadius)
      y := some (y + env.sin angle * ringRadius)
      vx := some 0
      vy := some 0
      color := colorAt colors ring
      size := some (8 + env.random t.randIdx * 6)
      life := some (400 + env.random (t.randIdx + 1) * 200)
      shape := some (if ring % 2 = 0 then Shape.heart else Shape.circle)
      mass := some 1
      pulsePhase := some ((ring : ℚ) * env.pi / 2) }
    (bump t 2)

/-- Loop body of createOrbit (lines 543-564): a particle on an orbital
path around one of the three centers. -/
def orbitBody (env : MathEnv) (center : ℚ × ℚ × ℚ) (ci _count : ℕ)
    (colors : List String) (i : ℕ) (t : EngineState) : EngineState :=
  let orbitRadius := 60 + env.random t.randIdx * 100
  let angle := env.random (t.randIdx + 1) * env.pi * 2
  let orbitalSpeed := env.sqrt (center.2.2 / orbitRadius) * (3/10)
  let tangent := angle + env.pi / 2
  addParticle env
    { x := some (center.1 + env.cos angle * orbitRadius)
      y := some (center.2.1 + env.sin angle * orbitRadius)
      vx := some (env.cos tangent * orbitalSpeed)
      vy := some (env.sin tangent * orbitalSpeed)
      color := colorAt colors (ci + i)
      size := some (5 + env.random (t.randIdx + 2) * 7)
      life := some (400 + env.random (t.randIdx + 3) * 200)
      shape := some (if 1/2 < env.random (t.randIdx + 4) then Shape.circle else Shape.hexagon)
      mass := some 1 }
    (bump t 5)

/-- Body of one delayed cascade spawn callback (lines 591-606). -/
def cascadeSpawnBody (env : MathEnv) (colors : List String) (t : EngineState) : EngineState :=
  let width := env.innerWidth
  let px := width * (1/10 + env.random t.randIdx * (4/5))
  let streamIndex := (⌊px / width * 7⌋).toNat
  addParticle env
    { x := some px
      y := some (-20 + env.random (t.randIdx + 1) * 10)
      vx := some ((env.random (t.randIdx + 2) - 1/2) * 2)
      vy := some (5 + env.random (t.randIdx + 3) * 5)
      color := colorAt colors streamIndex
      size := some (6 + env.random (t.randIdx + 4) * 10)
      life := some (300 + env.random (t.randIdx + 5) * 150)
      shape := some Shape.circle
      mass := some (4/5 + env.random (t.randIdx + 6) * (2/5)) }
    (bump t 7)

/-- Body of one delayed emergence spawn callback (lines 641-657). -/
def emergenceSpawnBody (env : MathEnv) (x y : ℚ) (i : ℕ) (colors : List String)
    (t : EngineState) : EngineState :=
  let angle := env.random t.randIdx * env.pi * 2
  let r := env.random (t.randIdx + 1) * 30
  addParticle env
    { x := some (x + env.cos angle * r)
      y := some (y + env.sin angle * r)
      vx := some (env.cos angle * 2)
      vy := some (env.sin angle * 2)
      color := colorAt colors i
      size := some (4 + env.random (t.randIdx + 2) * 8)
      life := some (200 + env.random (t.randIdx + 3) * 150)
      shape := some Shape.spiral
      mass := some (7/10)
      spiralAngle := some angle }
    (bump t 4)

/-- Loop body of createHarmony (lines 694-711): annulus particle with
small random drift. -/
def harmonyBody (env : MathEnv) (x y : ℚ) (colors : List String)
    (i : ℕ) (t : EngineState) : EngineState :=
  let angle := env.random t.randIdx * env.pi * 2
  let r := 100 + env.random (t.randIdx + 1) * 150
  addParticle env
    { x := some (x + env.cos angle * r)
      y := some (y + env.sin angle * r)
      vx := some ((env.random (t.randIdx + 2) - 1/2) * 2)
      vy := some ((env.random (t.randIdx + 3) - 1/2) * 2)
      color := colorAt colors i
      size := some (5 + env.random (t.randIdx + 4) * 6)
      life := some (500 + env.random (t.randIdx + 5) * 200)
      shape := some Shape.hexagon
      mass := some 1 }
    (bump t 6)

/-- Loop body of createHelix (lines 733-754): one strand particle. -/
def helixBody (env : MathEnv) (x y : ℚ) (count : ℕ) (colors : List String)
    (intensity : ℚ) (strand : ℕ) (i : ℕ) (t : EngineState) : EngineState :=
  let height := env.innerHeight
  let particlesPerStrand := count / 2
  let angle := (i : ℚ) / (particlesPerStrand : ℚ) * env.pi * 6 + (strand : ℚ) * env.pi
  let yOffset := (i : ℚ) / (particlesPerStrand : ℚ) * height * (4/5)
  let tangent := angle + env.pi / 2
  addParticle env
    { x := some (x + env.cos angle * 80)
      y := some (y - height * (2/5) + yOffset)
      vx := some (env.cos tangent * 2 * intensity)
      vy := some (3 * intensity + env.sin angle * (1/2))
      color := if strand = 0 then colors.get? 0 else colors.get? (colors.length - 1)
      size := some (6 + env.random t.randIdx * 5)
      life := some (250 + env.random (t.randIdx + 1) * 100)
      shape := some Shape.circle
      mass := some (9/10)
      spiralAngle := some angle }
    (bump t 2)

/-- Innermost loop body of createBloom (lines 786-811): one petal/layer
particle with outward plus tangential velocity. -/
def bloomBody (env : MathEnv) (x y : ℚ) (colors : List String) (intensity : ℚ)
    (petal layer : ℕ) (_i : ℕ) (t : EngineState) : EngineState :=
  let baseAngle := (petal : ℚ) / 8 * env.pi * 2
  let layerRadius : ℚ := 30 + (layer : ℚ) * 50
  let angle := baseAngle + (env.random t.randIdx - 1/2) * (3/10)
  let r := layerRadius + env.random (t.randIdx + 1) * 30
  let outwardSpeed := (1 + (layer : ℚ) * (1/2)) * intensity
  let tangentSpeed := (1/2) * intensity
  addParticle env
    { x := some (x + env.cos angle * r)
      y := some (y + env.sin angle * r)
      vx := some (env.cos angle * outwardSpeed + env.cos (angle + env.pi / 2) * tangentSpeed)
      vy := some (env.sin angle * outwardSpeed + env.sin (angle + env.pi / 2) * tangentSpeed)
      color := colorAt colors (petal + layer)
      size := some (8 + env.random (t.randIdx + 2) * 8 - (layer : ℚ) * (3/2))
      life := some (200 + (layer : ℚ) * 50 + env.random (t.randIdx + 3) * 100)
      shape := some (if layer = 0 then Shape.heart else Shape.circle)
      mass := some (4/5) }
    (bump t 4)

/-- Loop body of createConstellation (lines 828-849): golden-angle
spiral position, kept only when inside the screen margin; when the
position is filtered out no particle is spawned and no random value
is consumed. -/
def constellationBody (env : MathEnv) (colors : List String)
    (i : ℕ) (t : EngineState) : EngineState :=
  let width := env.innerWidth
  let height := env.innerHeight
  let goldenAngle := env.pi * (3 - env.sqrt 5)
  let angle := (i : ℚ) * goldenAngle
  let r := env.sqrt (i : ℚ) * 30
  let px := width / 2 + env.cos angle * r
  let py := height / 2 + env.sin angle * r
  if 50 < px ∧ px < width - 50 ∧ 50 < py ∧ py < height - 50 then
    addParticle env
      { x := some px
        y := some py
        vx := some ((env.random t.randIdx - 1/2) * (1/2))
        vy := some ((env.random (t.randIdx + 1) - 1/2) * (1/2))
        color := colorAt colors i
        size := some (3 + env.random (t.randIdx + 2) * 5)
        life := some (400 + env.random (t.randIdx + 3) * 200)
        shape := some Shape.star
        mass := some (1/2) }
      (bump t 4)
  else t

/-- Density-bump loop body of createNebula (lines 862-868). -/
def nebulaDensityBody (env : MathEnv) (x y : ℚ) (intensity : ℚ)
    (_i : ℕ) (t : EngineState) : EngineState :=
  let offsetX := (env.random t.randIdx - 1/2) * 200
  let offsetY := (env.random (t.randIdx + 1) - 1/2) * 200
  { t with
    fluid := t.fluid ++ [FluidOp.addDensity ((x + offsetX) / 20) ((y + offsetY) / 20) (80 * intensity) 8]
    randIdx := t.randIdx + 2 }

/-- Particle loop body of createNebula (lines 872-892): Box-Muller
radius around the origin. -/
def nebulaBody (env : MathEnv) (x y : ℚ) (colors : List String)
    (i : ℕ) (t : EngineState) : EngineState :=
  let angle := env.random t.randIdx * env.pi * 2
  let u := env.random (t.randIdx + 1)
  let v := env.random (t.randIdx + 2)
  let r := env.sqrt (-2 * env.log u) * env.cos (2 * env.pi * v) * 100
  addParticle env
    { x := some (x + env.cos angle * r)
      y := some (y + env.sin angle * r)
      vx := some ((env.random (t.randIdx + 3) - 1/2) * (3/2))
      vy := some ((env.random (t.randIdx + 4) - 1/2) * (3/2))
      color := colorAt colors i
      size := some (15 + env.random (t.randIdx + 5) * 25)
      life := some (250 + env.random (t.randIdx + 6) * 150)
      shape := some Shape.circle
      mass := some (2/5) }
    (bump t 7)

end Confetti

namespace Confetti

/-- Recipe createVortex (lines 290-336): central vortex attractor, fluid
swirl impulse, ring of particles. -/
def createVortex (env : MathEnv) (x y : ℚ) (count : ℕ) (colors : List String)
    (intensity : ℚ) (s : EngineState) : EngineState :=
  let att : Attractor := ⟨x, y, 200 * intensity, 400, AttractorType.vortex⟩
  let swirl : List FluidOp := [FluidOp.addForce (x / 20) (y / 20) 0 (-50 * intensity) 10]
  let s1 := { s with attractors := s.attractors ++ [att] }
  let s2 := { s1 with fluid := s1.fluid ++ swirl }
  iterFor count (vortexBody env x y count colors) s2

/-- The sixteen radial shockwave impulses plus the density bump that
createSupernova applies to the fluid. -/
def supernovaShock (env : MathEnv) (x y intensity : ℚ) : List FluidOp :=
  ((List.range 16).map (fun k =>
    FluidOp.addForce (x / 20) (y / 20)
      (env.cos ((k : ℚ) * env.pi / 8) * 100 * intensity)
      (env.sin ((k : ℚ) * env.pi / 8) * 100 * intensity) 5)) ++
  [FluidOp.addDensity (x / 20) (y / 20) (100 * intensity) 5]

/-- Recipe createSupernova (lines 339-396): 16 radial fluid impulses
(the loop steps the angle by pi/8 while it stays below 2 pi) plus a
density bump, an immediate fast burst of `count * 0.6` particles, and
one scheduled callback for the slower secondary ring. -/
def createSupernova (env : MathEnv) (x y : ℚ) (count : ℕ) (colors : List String)
    (intensity : ℚ) (s : EngineState) : EngineState :=
  let s1 := { s with fluid := s.fluid ++ supernovaShock env x y intensity }
  let s2 := iterFor (natsBelow ((count : ℚ) * (3/5)))
    (supernovaBurstBody env x y colors intensity) s1
  let job : PendingTimeout := ⟨100, Scheduled.supernovaSecondary x y count colors intensity⟩
  { s2 with pending := s2.pending ++ [job] }

/-- The five wave sources createAurora seeds the flow field with. -/
def auroraSources (env : MathEnv) (intensity : ℚ) : List FlowOp :=
  (List.range 5).map (fun k =>
    FlowOp.addSource 0 (env.innerHeight * (1/10 + (k : ℚ) * (1/5))) (2 * intensity)
      (env.sin ((k : ℚ) * (1/2)) * (1/2)) 200)

/-- Recipe createAurora (lines 399-446): the flow field is cleared and
seeded with five wave sources, then four ribbons of `count / 4`
particles each are spawned. -/
def createAurora (env : MathEnv) (count : ℕ) (colors : List String)
    (intensity : ℚ) (s : EngineState) : EngineState :=
  let height := env.innerHeight
  let s1 := { s with flow := auroraSources env intensity }
  iterFor 4 (fun ribbon t => iterFor (count / 4) (auroraBody env ribbon colors height) t) s1

/-- The five pulse callbacks createResonance schedules. -/
def resonanceJobs (x y pulseInterval : ℚ) : List PendingTimeout :=
  (List.range 5).map (fun (k : ℕ) => ⟨(k : ℚ) * pulseInterval, Scheduled.resonancePulse x y⟩)

/-- Recipe createResonance (lines 449-513): one pull attractor, four
concentric rings of `count / 4` particles, and five scheduled fluid
pulse callbacks spaced by `60000 / bpm` milliseconds. -/
def createResonance (env : MathEnv) (x y : ℚ) (count : ℕ) (colors : List String)
    (intensity : ℚ) (heartRate : Option ℚ) (s : EngineState) : EngineState :=
  let bpm := heartRate.getD 72
  let pulseInterval := 60000 / bpm
  let att : Attractor := ⟨x, y, 150 * intensity, 300, AttractorType.pull⟩
  let s1 := { s with attractors := s.attractors ++ [att] }
  let s2 := iterFor 4 (fun ring t =>
    iterFor (count / 4) (resonanceBody env x y ring count colors) t) s1
  { s2 with pending := s2.pending ++ resonanceJobs x y pulseInterval }

/-- Recipe createOrbit (lines 516-566): three orbit attractors in a
triangle, then `count / 3` particles around each center. -/
def createOrbit (env : MathEnv) (x y : ℚ) (count : ℕ) (colors : List String)
    (intensity : ℚ) (s : EngineState) : EngineState :=
  let centers : List (ℚ × ℚ × ℚ) :=
    [(x, y, 300 * intensity), (x - 150, y + 100, 200 * intensity),
     (x + 150, y + 100, 200 * intensity)]
  let atts : List Attractor :=
    centers.map (fun c => ⟨c.1, c.2.1, c.2.2, 250, AttractorType.orbit⟩)
  let s1 := { s with attractors := s.attractors ++ atts }
  centers.enum.foldl (fun t ic => iterFor (count / 3) (orbitBody env ic.2 ic.1 count colors) t) s1

/-- The seven downward stream sources createCascade seeds. -/
def cascadeSources (env : MathEnv) (intensity : ℚ) : List FlowOp :=
  (List.range 7).map (fun k =>
    FlowOp.addSource (env.innerWidth * (1/10 + (k : ℚ) * (13/100))) 0 0 (5 * intensity) 300)

/-- The per-particle delayed spawn callbacks createCascade schedules. -/
def cascadeJobs (count : ℕ) (colors : List String) : List PendingTimeout :=
  (List.range count).map (fun (i : ℕ) =>
    ⟨(i : ℚ) * (2000 / (count : ℚ)), Scheduled.cascadeSpawn colors⟩)

/-- Recipe createCascade (lines 569-608): the flow field is cleared and
seeded with seven downward streams; every particle spawn is delayed
(one scheduled callback per particle, spaced over 2000 ms). -/
def createCascade (env : MathEnv) (count : ℕ) (colors : List String)
    (intensity : ℚ) (s : EngineState) : EngineState :=
  let s1 := { s with flow := cascadeSources env intensity }
  { s1 with pending := s1.pending ++ cascadeJobs count colors }

/-- The one central and eight turbulence sources createEmergence seeds. -/
def emergenceSources (env : MathEnv) (x y intensity : ℚ) : List FlowOp :=
  [FlowOp.addSource x y 0 (-3 * intensity) 500] ++
    ((List.range 8).map (fun k =>
      FlowOp.addSource
        (x + env.cos ((k : ℚ) / 8 * env.pi * 2) * 200)
        (y + env.sin ((k : ℚ) / 8 * env.pi * 2) * 200)
        (env.cos ((k : ℚ) / 8 * env.pi * 2 + env.pi / 2) * 2)
        (env.sin ((k : ℚ) / 8 * env.pi * 2 + env.pi / 2) * 2) 100))

/-- The per-particle delayed spawn callbacks createEmergence schedules. -/
def emergenceJobs (x y : ℚ) (count : ℕ) (colors : List String) : List PendingTimeout :=
  (List.range count).map (fun (i : ℕ) =>
    ⟨(i : ℚ) * (1500 / (count : ℚ)), Scheduled.emergenceSpawn x y i colors⟩)

/-- Recipe createEmergence (lines 611-659): the flow field is cleared
and seeded with one central source and eight tangential turbulence
sources; every particle spawn is delayed (spaced over 1500 ms). -/
def createEmergence (env : MathEnv) (x y : ℚ) (count : ℕ) (colors : List String)
    (intensity : ℚ) (s : EngineState) : EngineState :=
  let s1 := { s with flow := emergenceSources env x y intensity }
  { s1 with pending := s1.pending ++ emergenceJobs x y count colors }

/-- The Lissajous parameter triple createHarmony stores on the engine. -/
def harmonyLissajous (env : MathEnv) : LissajousParams :=
  [(3, 2, 0, env.pi / 4), (2, 3, env.pi / 2, 0), (1, 2, 0, env.pi / 3)]

/-- Recipe createHarmony (lines 662-712): three pull attractors at the
origin, Lissajous parameters stored on the engine, `count` annulus
particles. -/
def createHarmony (env : MathEnv) (x y : ℚ) (count : ℕ) (colors : List String)
    (intensity : ℚ) (s : EngineState) : EngineState :=
  let att : Attractor := ⟨x, y, 100 * intensity, 200, AttractorType.pull⟩
  let s1 := { s with attractors := s.attractors ++ [att, att, att] }
  let s2 := { s1 with lissajous := some (harmonyLissajous env) }
  iterFor count (harmonyBody env x y colors) s2

/-- Recipe createHelix (lines 715-756): two strands of `count / 2`
particles each; no attractors and no field setup. -/
def createHelix (env : MathEnv) (x y : ℚ) (count : ℕ) (colors : List String)
    (intensity : ℚ) (s : EngineState) : EngineState :=
  iterFor 2 (fun strand t =>
    iterFor (count / 2) (helixBody env x y count colors intensity strand) t) s

/-- Recipe createBloom (lines 759-814): one weak pull attractor, then
8 petals times 4 layers times `count / 8 / 4` particles. -/
def createBloom (env : MathEnv) (x y : ℚ) (count : ℕ) (colors : List String)
    (intensity : ℚ) (s : EngineState) : EngineState :=
  let att : Attractor := ⟨x, y, 50 * intensity, 200, AttractorType.pull⟩
  let s1 := { s with attractors := s.attractors ++ [att] }
  iterFor 8 (fun petal t =>
    iterFor 4 (fun layer t2 =>
      iterFor (count / 8 / 4) (bloomBody env x y colors intensity petal layer) t2) t) s1

/-- Recipe createConstellation (lines 817-850): golden-angle spiral,
screen-margin filter, no attractors and no field setup. -/
def createConstellation (env : MathEnv) (count : ℕ) (colors : List String)
    (s : EngineState) : EngineState :=
  iterFor count (constellationBody env colors) s

/-- Recipe createNebula (lines 853-893): five random density bumps in
the fluid, then `count` Gaussian-distributed particles. -/
def createNebula (env : MathEnv) (x y : ℚ) (count : ℕ) (colors : List String)
    (intensity : ℚ) (s : EngineState) : EngineState :=
  let s1 := iterFor 5 (nebulaDensityBody env x y intensity) s
  iterFor count (nebulaBody env x y colors) s1

/-- The density bump and eight radial impulses one resonance pulse
callback applies to the fluid. -/
def resonancePulseOps (env : MathEnv) (x y : ℚ) : List FluidOp :=
  [FluidOp.addDensity (x / 20) (y / 20) 50 8] ++
    ((List.range 8).map (fun k =>
      FluidOp.addForce (x / 20) (y / 20)
        (env.cos ((k : ℚ) * env.pi / 4) * 30)
        (env.sin ((k : ℚ) * env.pi / 4) * 30) 3))

/-- Execute the body of a pending `setTimeout` callback. -/
def runScheduled (env : MathEnv) (job : Scheduled) (s : EngineState) : EngineState :=
  match job with
  | Scheduled.supernovaSecondary x y count colors intensity =>
      iterFor (natsBelow ((count : ℚ) * (2/5)))
        (supernovaSecondaryBody env x y colors intensity) s
  | Scheduled.resonancePulse x y =>
      { s with fluid := s.fluid ++ resonancePulseOps env x y }
  | Scheduled.cascadeSpawn colors => cascadeSpawnBody env colors s
  | Scheduled.emergenceSpawn x y i colors => emergenceSpawnBody env x y i colors s

/-- Celebration request (source interface `PhysicsCelebrationConfig`);
the recipe name is kept as a string so that unknown names can be
expressed. -/
structure CelebrationConfig where
  type : String
  origin : Option (ℚ × ℚ) := none
  count : Option ℕ := none
  colors : Option (List String) := none
  intensity : Option ℚ := none
  heartRate : Option ℚ := none
  dominantEmotion : Option String := none
deriving DecidableEq

/-- Source method isEnabled (lines 206-208). -/
def isEnabled (s : EngineState) : Bool :=
  s.enabled && !s.prefersReducedMotion

/-- The synchronous body of `celebrate` (lines 216-277): resolve config
defaults, replace the attractor list, and dispatch on the recipe name;
an unknown name matches no case of the switch. -/
def celebrateSpawn (env : MathEnv) (cfg : CelebrationConfig) (s : EngineState) : EngineState :=
  let origin := cfg.origin.getD (1/2, 1/2)
  let count := cfg.count.getD 100
  let colors := cfg.colors.getD (getColorsForEmotion cfg.dominantEmotion)
  let intensity := cfg.intensity.getD 1
  let x := origin.1 * env.innerWidth
  let y := origin.2 * env.innerHeight
  let s0 := { s with attractors := [] }
  if cfg.type = "vortex" then createVortex env x y count colors intensity s0
  else if cfg.type = "supernova" then createSupernova env x y count colors intensity s0
  else if cfg.type = "aurora" then createAurora env count colors intensity s0
  else if cfg.type = "resonance" then createResonance env x y count colors intensity cfg.heartRate s0
  else if cfg.type = "orbit" then createOrbit env x y count colors intensity s0
  else if cfg.type = "cascade" then createCascade env count colors intensity s0
  else if cfg.type = "emergence" then createEmergence env x y count colors intensity s0
  else if cfg.type = "harmony" then createHarmony env x y count colors intensity s0
  else if cfg.type = "helix" then createHelix env x y count colors intensity s0
  else if cfg.type = "bloom" then createBloom env x y count colors intensity s0
  else if cfg.type = "constellation" then createConstellation env count colors s0
  else if cfg.type = "nebula" then createNebula env x y count colors intensity s0
  else s0

/-- Lissajous attractor repositioning in `animate` (lines 1276-1304). -/
def lissaUpdate (env : MathEnv) (time : ℚ) (lis : LissajousParams)
    (atts : List Attractor) : List Attractor :=
  atts.enum.map (fun ia =>
    if ia.1 < 3 then
      match lis.get? ia.1 with
      | some params =>
          { ia.2 with
            x := env.innerWidth / 2 + env.sin (time * (1/50) * params.1 + params.2.2.1) * 150
            y := env.innerHeight / 2 + env.sin (time * (1/50) * params.2.1 + params.2.2.2) * 150 }
      | none => ia.2
    else ia.2)

/-- The part of `animate` that runs before the particle updates (lines
1272-1314): advance time, reposition Lissajous attractors, advance the
fluid and flow fields. -/
def preTick (env : MathEnv) (s : EngineState) : EngineState :=
  let s1 := { s with time := s.time + 1 }
  let s2 :=
    match s1.lissajous with
    | some lis =>
        if 3 ≤ s1.attractors.length then
          { s1 with attractors := lissaUpdate env s1.time lis s1.attractors }
        else s1
    | none => s1
  { s2 with
    fluid := s2.fluid ++ [FluidOp.step (2/125)]
    flow := s2.flow ++ [FlowOp.update 1] }

/-- All particles as updated mid-tick, before dead ones are pruned
(lines 1317-1323). -/
def tickUpdatedParticles (env : MathEnv) (s : EngineState) : List Particle :=
  s.particles.map (updateParticle env s 1)

/-- One full `animate` tick (lines 1271-1341): pre-update, particle
updates, pruning of particles with nonpositive life or opacity, and
rescheduling (modelled by the `animationId` flag; the render itself
touches only the canvas). -/
def animateStep (env : MathEnv) (s : EngineState) : EngineState :=
  let s1 := preTick env s
  let survivors := (tickUpdatedParticles env s1).filter (fun p =>
    decide (0 < p.life) && decide (0 < p.opacity))
  let s2 := { s1 with particles := survivors }
  if s2.particles.isEmpty && s2.attractors.isEmpty then
    { s2 with animationId := none, lissajous := none }
  else
    { s2 with animationId := some 1 }

/-- Source method celebrate (lines 213-283): no-op while not enabled;
otherwise spawn and, when no animation frame is scheduled, run the
animation step immediately. -/
def celebrate (env : MathEnv) (cfg : CelebrationConfig) (s : EngineState) : EngineState :=
  if isEnabled s then
    let s1 := celebrateSpawn env cfg s
    if s1.animationId = none then animateStep env s1 else s1
  else s

/-- Source method clear (lines 1356-1373): empty particles, attractors
and both fields, cancel the scheduled animation frame, drop the
Lissajous parameters.  The `setTimeout` handles created by the recipes
are never stored by the source, so pending delayed callbacks remain. -/
def clear (s : EngineState) : EngineState :=
  { s with
    particles := []
    attractors := []
    fluid := []
    flow := []
    animationId := none
    lissajous := none }

/-- Source method setEnabled (lines 198-203). -/
def setEnabled (b : Bool) (s : EngineState) : EngineState :=
  let s1 := { s with enabled := b }
  if b then s1 else clear s1

/-- The freshly constructed engine state (fields at lines 113-130). -/
def initState : EngineState :=
  { particles := []
    attractors := []
    fluid := []
    flow := []
    animationId := none
    time := 0
    particleIdCounter := 0
    enabled := true
    prefersReducedMotion := false
    lissajous := none
    pending := []
    randIdx := 0 }

/-- A concrete environment used to evaluate the model on closed inputs:
a 1000 x 800 viewport, a random stream that always yields 0 (a value
`Math.random()` can produce), and degenerate but harmless math oracles.
Claims evaluated with it do not depend on the oracle values. -/
def testEnv : MathEnv :=
  { random := fun _ => 0
    cos := fun _ => 0
    sin := fun _ => 0
    sqrt := fun _ => 0
    log := fun _ => 0
    pi := 0
    innerWidth := 1000
    innerHeight := 800
    fluidVel := fun _ _ _ => (0, 0)
    flowSample := fun _ _ _ => (0, 0) }

/-- A second concrete environment whose sine oracle is not identically
zero (sin q = q, the small-angle surrogate; any nonzero choice works)
and whose pi is the rational 3; used to exhibit behaviour that the
degenerate oracles of `testEnv` would mask, such as the Lissajous
repositioning of freshly installed attractors. -/
def ctrEnv : MathEnv :=
  { testEnv with sin := fun q => q, pi := 3 }

end Confetti

namespace Confetti

/-- Invariant of the id-keyed particle map: every stored id is below the
monotone id counter (true of every reachable engine state, since ids
are handed out by the counter). -/
def freshIds (s : EngineState) : Prop :=
  ∀ p ∈ s.particles, p.id < s.particleIdCounter

/-- Summary of the state change performed by recipe spawning code:
`np` particles appended (never removing or reordering existing ones),
`newAtts` attractors appended, `newPend` timeouts appended, and the
animation flag and enablement state untouched. -/
structure SpawnEffect (s s2 : EngineState) (newAtts : List Attractor) (np : ℕ)
    (newPend : List PendingTimeout) : Prop where
  particlesEq : ∃ l : List Particle, s2.particles = s.particles ++ l ∧ l.length = np
  attractorsEq : s2.attractors = s.attractors ++ newAtts
  pendingEq : s2.pending = s.pending ++ newPend
  animationIdEq : s2.animationId = s.animationId
  enabledEq : s2.enabled = s.enabled
  prmEq : s2.prefersReducedMotion = s.prefersReducedMotion
  fresh : freshIds s2

/-- Squared euclidean norm of a force vector. -/
def normSq (v : ℚ × ℚ) : ℚ := v.1 * v.1 + v.2 * v.2

/-- Squared length of the direction blend each attractor kind applies to
the scalar force magnitude: pull and push are unit radial vectors;
orbit blends 0.7 perpendicular with 0.3 radial; vortex blends 0.8
perpendicular with 0.5 radial. -/
def kindFactor : AttractorType → ℚ
  | AttractorType.pull => 1
  | AttractorType.push => 1
  | AttractorType.orbit => 29/50
  | AttractorType.vortex => 89/100

/-- How many particles the body of a pending callback adds when it fires. -/
def pendingSpawnSize : Scheduled → ℕ
  | Scheduled.supernovaSecondary _ _ count _ _ => natsBelow ((count : ℚ) * (2/5))
  | Scheduled.resonancePulse _ _ => 0
  | Scheduled.cascadeSpawn _ => 1
  | Scheduled.emergenceSpawn _ _ _ _ => 1

/-- Total number of particles the pending callbacks of a state will add. -/
def pendingSpawnTotal (s : EngineState) : ℕ :=
  (s.pending.map (fun t => pendingSpawnSize t.job)).sum

/-- The attractor list a known recipe installs (read off the
`attractors.push` calls of each create function). -/
def recipeAttractors (env : MathEnv) (cfg : CelebrationConfig) : List Attractor :=
  let origin := cfg.origin.getD (1/2, 1/2)
  let intensity := cfg.intensity.getD 1
  let x := origin.1 * env.innerWidth
  let y := origin.2 * env.innerHeight
  if cfg.type = "vortex" then [⟨x, y, 200 * intensity, 400, AttractorType.vortex⟩]
  else if cfg.type = "resonance" then [⟨x, y, 150 * intensity, 300, AttractorType.pull⟩]
  else if cfg.type = "orbit" then
    [⟨x, y, 300 * intensity, 250, AttractorType.orbit⟩,
     ⟨x - 150, y + 100, 200 * intensity, 250, AttractorType.orbit⟩,
     ⟨x + 150, y + 100, 200 * intensity, 250, AttractorType.orbit⟩]
  else if cfg.type = "harmony" then
    [⟨x, y, 100 * intensity, 200, AttractorType.pull⟩,
     ⟨x, y, 100 * intensity, 200, AttractorType.pull⟩,
     ⟨x, y, 100 * intensity, 200, AttractorType.pull⟩]
  else if cfg.type = "bloom" then [⟨x, y, 50 * intensity, 200, AttractorType.pull⟩]
  else []

/-- Number of particles the synchronous part of a known recipe spawns,
as a function of the requested count (constellation is excluded: its
yield depends on the viewport filter and is only bounded by count). -/
def syncSpawnCount (name : String) (count : ℕ) : ℕ :=
  if name = "vortex" then count
  else if name = "supernova" then natsBelow ((count : ℚ) * (3/5))
  else if name = "aurora" then 4 * (count / 4)
  else if name = "resonance" then 4 * (count / 4)
  else if name = "orbit" then 3 * (count / 3)
  else if name = "harmony" then count
  else if name = "helix" then 2 * (count / 2)
  else if name = "bloom" then 32 * (count / 32)
  else if name = "nebula" then count
  else 0

/-- Number of particles a known recipe defers to delayed callbacks. -/
def delayedSpawnCount (name : String) (count : ℕ) : ℕ :=
  if name = "supernova" then natsBelow ((count : ℚ) * (2/5))
  else if name = "cascade" then count
  else if name = "emergence" then count
  else 0

/-- A celebration request with every option filled in explicitly. -/
def mkRecipeCfg (name : String) (count : ℕ) (origin : ℚ × ℚ)
    (colors : List String) (intensity : ℚ) (hr : Option ℚ) : CelebrationConfig :=
  { type := name
    origin := some origin
    count := some count
    colors := some colors
    intensity := some intensity
    heartRate := hr }

/-- A live particle in the last tick of its life: its remaining life is
a fraction of a tick (lives are seeded as `base + Math.random() * span`
and decremented by 1 per tick, so fractional remainders are the generic
case), and its opacity still reflects the previous recompute. -/
def dyingParticle : Particle :=
  { id := 0
    x := 100
    y := 100
    vx := 0
    vy := 0
    ax := 0
    ay := 0
    size := 8
    rotation := 0
    rotationVelocity := 0
    color := "#10b981"
    opacity := 1/150
    life := 1/2
    maxLife := 150
    mass := 1
    shape := Shape.circle
    trail := []
    pulsePhase := 0
    spiralAngle := none }

/-- A particle midway through a 150-tick life, used to witness the
opacity law. -/
def midlifeParticle : Particle :=
  { dyingParticle with life := 100, maxLife := 150, opacity := 1 }

/-- An engine state whose animation loop is running with the single
particle `dyingParticle` in flight. -/
def dyingState : EngineState :=
  { initState with
    particles := [dyingParticle]
    particleIdCounter := 1
    animationId := some 1
    time := 150 }

/-- A concrete orbit attractor at distance 5 (a 3-4-5 triangle) from
the origin-placed particle used in the force-contribution claims. -/
def orbitAttractor : Attractor :=
  { x := 3, y := 4, strength := 100, radius := 10, type := AttractorType.orbit }

/-- The same geometry with the pull kind. -/
def pullAttractor : Attractor :=
  { x := 3, y := 4, strength := 100, radius := 10, type := AttractorType.pull }

/-- Opacity as recomputed from a life value (line 1029):
`min(1, life / maxLife * 2)`. -/
def opacityOf (maxLife life : ℚ) : ℚ := min 1 (life / maxLife * 2)

/-- A disabled engine state holding a particle and an attractor, used to
witness that celebrate is a no-op while disabled. -/
def disabledBusyState : EngineState :=
  { initState with
    enabled := false
    particles := [dyingParticle]
    particleIdCounter := 1
    attractors := [pullAttractor]
    animationId := some 1 }

end Confetti

namespace Confetti

theorem newParticle_id (env : MathEnv) (cfg : PConfig) (s : EngineState) :
    (newParticle env cfg s).id = s.particleIdCounter := rfl

theorem setParticle_of_fresh (ps : List Particle) (p : Particle)
    (h : ∀ q ∈ ps, q.id ≠ p.id) : setParticle ps p = ps ++ [p] := by
  have hno : ¬ (ps.any (fun q => q.id = p.id) = true) := by
    intro hc
    rcases List.any_eq_true.mp hc with ⟨q, hq, heq⟩
    exact h q hq (by simpa using heq)
  unfold setParticle
  rw [if_neg hno]

theorem addParticle_particles (env : MathEnv) (cfg : PConfig) (s : EngineState)
    (h : freshIds s) :
    (addParticle env cfg s).particles = s.particles ++ [newParticle env cfg s] := by
  show setParticle s.particles (newParticle env cfg s) = _
  exact setParticle_of_fresh _ _ (fun q hq => by
    have hlt := h q hq
    rw [newParticle_id]
    omega)

theorem addParticle_frame (env : MathEnv) (cfg : PConfig) (s : EngineState) :
    (addParticle env cfg s).attractors = s.attractors ∧
    (addParticle env cfg s).pending = s.pending ∧
    (addParticle env cfg s).animationId = s.animationId ∧
    (addParticle env cfg s).enabled = s.enabled ∧
    (addParticle env cfg s).prefersReducedMotion = s.prefersReducedMotion ∧
    (addParticle env cfg s).fluid = s.fluid ∧
    (addParticle env cfg s).flow = s.flow ∧
    (addParticle env cfg s).particleIdCounter = s.particleIdCounter + 1 ∧
    (addParticle env cfg s).lissajous = s.lissajous ∧
    (addParticle env cfg s).time = s.time :=
  ⟨rfl, rfl, rfl, rfl, rfl, rfl, rfl, rfl, rfl, rfl⟩

theorem addParticle_fresh (env : MathEnv) (cfg : PConfig) (s : EngineState)
    (h : freshIds s) : freshIds (addParticle env cfg s) := by
  intro q hq
  rw [addParticle_particles env cfg s h] at hq
  have hc : (addParticle env cfg s).particleIdCounter = s.particleIdCounter + 1 := rfl
  rw [hc]
  rcases List.mem_append.mp hq with hq1 | hq2
  · have := h q hq1
    omega
  · have hq3 : q = newParticle env cfg s := by simpa using hq2
    rw [hq3, newParticle_id]
    omega

theorem spawnEffect_refl (s : EngineState) (h : freshIds s) : SpawnEffect s s [] 0 [] :=
  ⟨⟨[], by simp, rfl⟩, by simp, by simp, rfl, rfl, rfl, h⟩

theorem SpawnEffect.trans {s1 s2 s3 : EngineState}
    {A1 : List Attractor} {n1 : ℕ} {P1 : List PendingTimeout}
    {A2 : List Attractor} {n2 : ℕ} {P2 : List PendingTimeout}
    (h1 : SpawnEffect s1 s2 A1 n1 P1) (h2 : SpawnEffect s2 s3 A2 n2 P2) :
    SpawnEffect s1 s3 (A1 ++ A2) (n1 + n2) (P1 ++ P2) := by
  rcases h1.particlesEq with ⟨l1, hl1, hn1⟩
  rcases h2.particlesEq with ⟨l2, hl2, hn2⟩
  refine ⟨⟨l1 ++ l2, ?_, ?_⟩, ?_, ?_, ?_, ?_, ?_, h2.fresh⟩
  · rw [hl2, hl1, List.append_assoc]
  · rw [List.length_append, hn1, hn2]
  · rw [h2.attractorsEq, h1.attractorsEq, List.append_assoc]
  · rw [h2.pendingEq, h1.pendingEq, List.append_assoc]
  · rw [h2.animationIdEq, h1.animationIdEq]
  · rw [h2.enabledEq, h1.enabledEq]
  · rw [h2.prmEq, h1.prmEq]

theorem spawnEffect_addParticle_bump (env : MathEnv) (cfg : PConfig) (m : ℕ)
    (s : EngineState) (h : freshIds s) :
    SpawnEffect s (addParticle env cfg (bump s m)) [] 1 [] := by
  have hb : freshIds (bump s m) := h
  refine ⟨⟨[newParticle env cfg (bump s m)], ?_, rfl⟩, ?_, ?_, rfl, rfl, rfl,
    addParticle_fresh env cfg (bump s m) hb⟩
  · exact addParticle_particles env cfg (bump s m) hb
  · simp [(addParticle_frame env cfg (bump s m)).1]
    rfl
  · simp [(addParticle_frame env cfg (bump s m)).2.1]
    rfl

theorem spawnEffect_setAttractors (s : EngineState) (A : List Attractor)
    (h : freshIds s) : SpawnEffect s { s with attractors := s.attractors ++ A } A 0 [] :=
  ⟨⟨[], by simp, rfl⟩, rfl, by simp, rfl, rfl, rfl, h⟩

theorem spawnEffect_setFluid (s : EngineState) (f : List FluidOp)
    (h : freshIds s) : SpawnEffect s { s with fluid := f } [] 0 [] :=
  ⟨⟨[], by simp, rfl⟩, by simp, by simp, rfl, rfl, rfl, h⟩

theorem spawnEffect_setFlow (s : EngineState) (f : List FlowOp)
    (h : freshIds s) : SpawnEffect s { s with flow := f } [] 0 [] :=
  ⟨⟨[], by simp, rfl⟩, by simp, by simp, rfl, rfl, rfl, h⟩

theorem spawnEffect_appendPending (s : EngineState) (P : List PendingTimeout)
    (h : freshIds s) : SpawnEffect s { s with pending := s.pending ++ P } [] 0 P :=
  ⟨⟨[], by simp, rfl⟩, by simp, rfl, rfl, rfl, rfl, h⟩

theorem spawnEffect_setLissajous (s : EngineState) (L : Option LissajousParams)
    (h : freshIds s) : SpawnEffect s { s with lissajous := L } [] 0 [] :=
  ⟨⟨[], by simp, rfl⟩, by simp, by simp, rfl, rfl, rfl, h⟩

theorem iterFor_zero (body : ℕ → EngineState → EngineState) (s : EngineState) :
    iterFor 0 body s = s := rfl

theorem iterFor_succ (body : ℕ → EngineState → EngineState) (n : ℕ) (s : EngineState) :
    iterFor (n + 1) body s = body n (iterFor n body s) := by
  unfold iterFor
  rw [List.range_succ, List.foldl_append]
  rfl

theorem spawnEffect_iterFor (body : ℕ → EngineState → EngineState) (k : ℕ)
    (hb : ∀ i t, freshIds t → SpawnEffect t (body i t) [] k []) (n : ℕ) :
    ∀ s, freshIds s → SpawnEffect s (iterFor n body s) [] (n * k) [] := by
  induction n with
  | zero =>
      intro s h
      rw [iterFor_zero]
      simpa using spawnEffect_refl s h
  | succ m ih =>
      intro s h
      rw [iterFor_succ]
      have h1 := ih s h
      have h2 := hb m (iterFor m body s) h1.fresh
      have h3 := h1.trans h2
      simpa [Nat.succ_mul] using h3

theorem spawnEffect_iterFor_le (body : ℕ → EngineState → EngineState)
    (hb : ∀ i t, freshIds t → ∃ k, k ≤ 1 ∧ SpawnEffect t (body i t) [] k []) (n : ℕ) :
    ∀ s, freshIds s → ∃ m, m ≤ n ∧ SpawnEffect s (iterFor n body s) [] m [] := by
  induction n with
  | zero =>
      intro s h
      exact ⟨0, Nat.le_refl 0, by rw [iterFor_zero]; exact spawnEffect_refl s h⟩
  | succ m ih =>
      intro s h
      rcases ih s h with ⟨m1, hm1, h1⟩
      rcases hb m (iterFor m body s) h1.fresh with ⟨k, hk, h2⟩
      refine ⟨m1 + k, by omega, ?_⟩
      rw [iterFor_succ]
      simpa using h1.trans h2

end Confetti

namespace Confetti

theorem vortexBody_effect (env : MathEnv) (x y : ℚ) (c : ℕ) (cols : List String) :
    ∀ i t, freshIds t → SpawnEffect t (vortexBody env x y c cols i t) [] 1 [] :=
  fun _ t h => spawnEffect_addParticle_bump env _ 6 t h

theorem supernovaBurstBody_effect (env : MathEnv) (x y : ℚ) (cols : List String) (inten : ℚ) :
    ∀ i t, freshIds t → SpawnEffect t (supernovaBurstBody env x y cols inten i t) [] 1 [] :=
  fun _ t h => spawnEffect_addParticle_bump env _ 4 t h

theorem supernovaSecondaryBody_effect (env : MathEnv) (x y : ℚ) (cols : List String) (inten : ℚ) :
    ∀ i t, freshIds t → SpawnEffect t (supernovaSecondaryBody env x y cols inten i t) [] 1 [] :=
  fun _ t h => spawnEffect_addParticle_bump env _ 4 t h

theorem auroraBody_effect (env : MathEnv) (ribbon : ℕ) (cols : List String) (height : ℚ) :
    ∀ i t, freshIds t → SpawnEffect t (auroraBody env ribbon cols height i t) [] 1 [] :=
  fun _ t h => spawnEffect_addParticle_bump env _ 5 t h

theorem resonanceBody_effect (env : MathEnv) (x y : ℚ) (ring c : ℕ) (cols : List String) :
    ∀ i t, freshIds t → SpawnEffect t (resonanceBody env x y ring c cols i t) [] 1 [] :=
  fun _ t h => spawnEffect_addParticle_bump env _ 2 t h

theorem orbitBody_effect (env : MathEnv) (center : ℚ × ℚ × ℚ) (ci c : ℕ) (cols : List String) :
    ∀ i t, freshIds t → SpawnEffect t (orbitBody env center ci c cols i t) [] 1 [] :=
  fun _ t h => spawnEffect_addParticle_bump env _ 5 t h

theorem cascadeSpawnBody_effect (env : MathEnv) (cols : List String) :
    ∀ t, freshIds t → SpawnEffect t (cascadeSpawnBody env cols t) [] 1 [] :=
  fun t h => spawnEffect_addParticle_bump env _ 7 t h

theorem emergenceSpawnBody_effect (env : MathEnv) (x y : ℚ) (i : ℕ) (cols : List String) :
    ∀ t, freshIds t → SpawnEffect t (emergenceSpawnBody env x y i cols t) [] 1 [] :=
  fun t h => spawnEffect_addParticle_bump env _ 4 t h

theorem harmonyBody_effect (env : MathEnv) (x y : ℚ) (cols : List String) :
    ∀ i t, freshIds t → SpawnEffect t (harmonyBody env x y cols i t) [] 1 [] :=
  fun _ t h => spawnEffect_addParticle_bump env _ 6 t h

theorem helixBody_effect (env : MathEnv) (x y : ℚ) (c : ℕ) (cols : List String)
    (inten : ℚ) (strand : ℕ) :
    ∀ i t, freshIds t → SpawnEffect t (helixBody env x y c cols inten strand i t) [] 1 [] :=
  fun _ t h => spawnEffect_addParticle_bump env _ 2 t h

theorem bloomBody_effect (env : MathEnv) (x y : ℚ) (cols : List String) (inten : ℚ)
    (petal layer : ℕ) :
    ∀ i t, freshIds t → SpawnEffect t (bloomBody env x y cols inten petal layer i t) [] 1 [] :=
  fun _ t h => spawnEffect_addParticle_bump env _ 4 t h

theorem nebulaBody_effect (env : MathEnv) (x y : ℚ) (cols : List String) :
    ∀ i t, freshIds t → SpawnEffect t (nebulaBody env x y cols i t) [] 1 [] :=
  fun _ t h => spawnEffect_addParticle_bump env _ 7 t h

theorem constellationBody_effect (env : MathEnv) (cols : List String) :
    ∀ i t, freshIds t → ∃ k, k ≤ 1 ∧ SpawnEffect t (constellationBody env cols i t) [] k [] := by
  intro i t h
  dsimp only [constellationBody]
  split
  · exact ⟨1, Nat.le_refl 1, spawnEffect_addParticle_bump env _ 4 t h⟩
  · exact ⟨0, Nat.zero_le 1, spawnEffect_refl t h⟩

theorem nebulaDensityBody_effect (env : MathEnv) (x y inten : ℚ) :
    ∀ i t, freshIds t → SpawnEffect t (nebulaDensityBody env x y inten i t) [] 0 [] := by
  intro i t h
  exact ⟨⟨[], by simp [nebulaDensityBody], rfl⟩, by simp [nebulaDensityBody],
    by simp [nebulaDensityBody], rfl, rfl, rfl, h⟩

end Confetti

namespace Confetti

theorem SpawnEffect.congr {s s2 : EngineState}
    {A A2 : List Attractor} {n n2 : ℕ} {P P2 : List PendingTimeout}
    (h : SpawnEffect s s2 A n P) (hA : A = A2) (hn : n = n2) (hP : P = P2) :
    SpawnEffect s s2 A2 n2 P2 := by
  subst hA
  subst hn
  subst hP
  exact h

theorem createVortex_effect (env : MathEnv) (x y : ℚ) (c : ℕ) (cols : List String)
    (inten : ℚ) (s : EngineState) (h : freshIds s) :
    SpawnEffect s (createVortex env x y c cols inten s)
      [⟨x, y, 200 * inten, 400, AttractorType.vortex⟩] c [] := by
  have h1 := spawnEffect_setAttractors s
    [(⟨x, y, 200 * inten, 400, AttractorType.vortex⟩ : Attractor)] h
  have h2 := spawnEffect_setFluid
    { s with attractors := s.attractors ++ [(⟨x, y, 200 * inten, 400, AttractorType.vortex⟩ : Attractor)] }
    ({ s with attractors := s.attractors ++ [(⟨x, y, 200 * inten, 400, AttractorType.vortex⟩ : Attractor)] }.fluid
      ++ [FluidOp.addForce (x / 20) (y / 20) 0 (-50 * inten) 10]) h1.fresh
  have h3 := spawnEffect_iterFor (vortexBody env x y c cols) 1
    (vortexBody_effect env x y c cols) c _ h2.fresh
  exact ((h1.trans h2).trans h3).congr (by simp) (by omega) (by simp)

theorem createSupernova_effect (env : MathEnv) (x y : ℚ) (c : ℕ) (cols : List String)
    (inten : ℚ) (s : EngineState) (h : freshIds s) :
    SpawnEffect s (createSupernova env x y c cols inten s)
      [] (natsBelow ((c : ℚ) * (3/5)))
      [(⟨100, Scheduled.supernovaSecondary x y c cols inten⟩ : PendingTimeout)] := by
  have h1 := spawnEffect_setFluid s (s.fluid ++ supernovaShock env x y inten) h
  have h2 := spawnEffect_iterFor (supernovaBurstBody env x y cols inten) 1
    (supernovaBurstBody_effect env x y cols inten) (natsBelow ((c : ℚ) * (3/5))) _ h1.fresh
  have h3 := spawnEffect_appendPending
    (iterFor (natsBelow ((c : ℚ) * (3/5))) (supernovaBurstBody env x y cols inten)
      { s with fluid := s.fluid ++ supernovaShock env x y inten })
    [(⟨100, Scheduled.supernovaSecondary x y c cols inten⟩ : PendingTimeout)] h2.fresh
  exact ((h1.trans h2).trans h3).congr (by simp) (by omega) (by simp)

theorem createAurora_effect (env : MathEnv) (c : ℕ) (cols : List String)
    (inten : ℚ) (s : EngineState) (h : freshIds s) :
    SpawnEffect s (createAurora env c cols inten s) [] (4 * (c / 4)) [] := by
  have h1 := spawnEffect_setFlow s (auroraSources env inten) h
  have h2 := spawnEffect_iterFor
    (fun ribbon t => iterFor (c / 4) (auroraBody env ribbon cols env.innerHeight) t)
    ((c / 4) * 1)
    (fun i t ht =>
      spawnEffect_iterFor (auroraBody env i cols env.innerHeight) 1
        (auroraBody_effect env i cols env.innerHeight) (c / 4) t ht)
    4 _ h1.fresh
  exact (h1.trans h2).congr (by simp) (by omega) (by simp)

theorem createResonance_effect (env : MathEnv) (x y : ℚ) (c : ℕ) (cols : List String)
    (inten : ℚ) (hr : Option ℚ) (s : EngineState) (h : freshIds s) :
    SpawnEffect s (createResonance env x y c cols inten hr s)
      [⟨x, y, 150 * inten, 300, AttractorType.pull⟩] (4 * (c / 4))
      (resonanceJobs x y (60000 / hr.getD 72)) := by
  have h1 := spawnEffect_setAttractors s
    [(⟨x, y, 150 * inten, 300, AttractorType.pull⟩ : Attractor)] h
  have h2 := spawnEffect_iterFor
    (fun ring t => iterFor (c / 4) (resonanceBody env x y ring c cols) t)
    ((c / 4) * 1)
    (fun i t ht =>
      spawnEffect_iterFor (resonanceBody env x y i c cols) 1
        (resonanceBody_effect env x y i c cols) (c / 4) t ht)
    4 _ h1.fresh
  have h3 := spawnEffect_appendPending
    (iterFor 4 (fun ring t => iterFor (c / 4) (resonanceBody env x y ring c cols) t)
      { s with attractors := s.attractors ++ [(⟨x, y, 150 * inten, 300, AttractorType.pull⟩ : Attractor)] })
    (resonanceJobs x y (60000 / hr.getD 72)) h2.fresh
  exact ((h1.trans h2).trans h3).congr (by simp) (by omega) (by simp)

theorem createOrbit_effect (env : MathEnv) (x y : ℚ) (c : ℕ) (cols : List String)
    (inten : ℚ) (s : EngineState) (h : freshIds s) :
    SpawnEffect s (createOrbit env x y c cols inten s)
      [⟨x, y, 300 * inten, 250, AttractorType.orbit⟩,
       ⟨x - 150, y + 100, 200 * inten, 250, AttractorType.orbit⟩,
       ⟨x + 150, y + 100, 200 * inten, 250, AttractorType.orbit⟩]
      (3 * (c / 3)) [] := by
  have h1 := spawnEffect_setAttractors s
    [(⟨x, y, 300 * inten, 250, AttractorType.orbit⟩ : Attractor),
     ⟨x - 150, y + 100, 200 * inten, 250, AttractorType.orbit⟩,
     ⟨x + 150, y + 100, 200 * inten, 250, AttractorType.orbit⟩] h
  have h2 := spawnEffect_iterFor (orbitBody env (x, y, 300 * inten) 0 c cols) 1
    (orbitBody_effect env (x, y, 300 * inten) 0 c cols) (c / 3) _ h1.fresh
  have h3 := spawnEffect_iterFor (orbitBody env (x - 150, y + 100, 200 * inten) 1 c cols) 1
    (orbitBody_effect env (x - 150, y + 100, 200 * inten) 1 c cols) (c / 3) _ h2.fresh
  have h4 := spawnEffect_iterFor (orbitBody env (x + 150, y + 100, 200 * inten) 2 c cols) 1
    (orbitBody_effect env (x + 150, y + 100, 200 * inten) 2 c cols) (c / 3) _ h3.fresh
  exact (((h1.trans h2).trans h3).trans h4).congr (by simp) (by omega) (by simp)

theorem createCascade_effect (env : MathEnv) (c : ℕ) (cols : List String)
    (inten : ℚ) (s : EngineState) (h : freshIds s) :
    SpawnEffect s (createCascade env c cols inten s) [] 0 (cascadeJobs c cols) := by
  have h1 := spawnEffect_setFlow s (cascadeSources env inten) h
  have h2 := spawnEffect_appendPending { s with flow := cascadeSources env inten }
    (cascadeJobs c cols) h1.fresh
  exact (h1.trans h2).congr (by simp) (by omega) (by simp)

theorem createEmergence_effect (env : MathEnv) (x y : ℚ) (c : ℕ) (cols : List String)
    (inten : ℚ) (s : EngineState) (h : freshIds s) :
    SpawnEffect s (createEmergence env x y c cols inten s) [] 0 (emergenceJobs x y c cols) := by
  have h1 := spawnEffect_setFlow s (emergenceSources env x y inten) h
  have h2 := spawnEffect_appendPending { s with flow := emergenceSources env x y inten }
    (emergenceJobs x y c cols) h1.fresh
  exact (h1.trans h2).congr (by simp) (by omega) (by simp)

theorem createHarmony_effect (env : MathEnv) (x y : ℚ) (c : ℕ) (cols : List String)
    (inten : ℚ) (s : EngineState) (h : freshIds s) :
    SpawnEffect s (createHarmony env x y c cols inten s)
      [⟨x, y, 100 * inten, 200, AttractorType.pull⟩,
       ⟨x, y, 100 * inten, 200, AttractorType.pull⟩,
       ⟨x, y, 100 * inten, 200, AttractorType.pull⟩] c [] := by
  have h1 := spawnEffect_setAttractors s
    [(⟨x, y, 100 * inten, 200, AttractorType.pull⟩ : Attractor),
     ⟨x, y, 100 * inten, 200, AttractorType.pull⟩,
     ⟨x, y, 100 * inten, 200, AttractorType.pull⟩] h
  have h2 := spawnEffect_setLissajous
    { s with attractors := s.attractors ++
        [(⟨x, y, 100 * inten, 200, AttractorType.pull⟩ : Attractor),
         ⟨x, y, 100 * inten, 200, AttractorType.pull⟩,
         ⟨x, y, 100 * inten, 200, AttractorType.pull⟩] }
    (some (harmonyLissajous env)) h1.fresh
  have h3 := spawnEffect_iterFor (harmonyBody env x y cols) 1
    (harmonyBody_effect env x y cols) c _ h2.fresh
  exact ((h1.trans h2).trans h3).congr (by simp) (by omega) (by simp)

theorem createHelix_effect (env : MathEnv) (x y : ℚ) (c : ℕ) (cols : List String)
    (inten : ℚ) (s : EngineState) (h : freshIds s) :
    SpawnEffect s (createHelix env x y c cols inten s) [] (2 * (c / 2)) [] := by
  have h2 := spawnEffect_iterFor
    (fun strand t => iterFor (c / 2) (helixBody env x y c cols inten strand) t)
    ((c / 2) * 1)
    (fun i t ht =>
      spawnEffect_iterFor (helixBody env x y c cols inten i) 1
        (helixBody_effect env x y c cols inten i) (c / 2) t ht)
    2 s h
  exact h2.congr (by simp) (by omega) (by simp)

theorem createBloom_effect (env : MathEnv) (x y : ℚ) (c : ℕ) (cols : List String)
    (inten : ℚ) (s : EngineState) (h : freshIds s) :
    SpawnEffect s (createBloom env x y c cols inten s)
      [⟨x, y, 50 * inten, 200, AttractorType.pull⟩] (32 * (c / 32)) [] := by
  have h1 := spawnEffect_setAttractors s
    [(⟨x, y, 50 * inten, 200, AttractorType.pull⟩ : Attractor)] h
  have h2 := spawnEffect_iterFor
    (fun petal t => iterFor 4 (fun layer t2 =>
      iterFor (c / 8 / 4) (bloomBody env x y cols inten petal layer) t2) t)
    (4 * ((c / 8 / 4) * 1))
    (fun petal t ht =>
      spawnEffect_iterFor
        (fun layer t2 => iterFor (c / 8 / 4) (bloomBody env x y cols inten petal layer) t2)
        ((c / 8 / 4) * 1)
        (fun layer t2 ht2 =>
          spawnEffect_iterFor (bloomBody env x y cols inten petal layer) 1
            (bloomBody_effect env x y cols inten petal layer) (c / 8 / 4) t2 ht2)
        4 t ht)
    8 _ h1.fresh
  refine (h1.trans h2).congr (by simp) ?_ (by simp)
  rw [Nat.div_div_eq_div_mul]
  omega

theorem createConstellation_effect (env : MathEnv) (c : ℕ) (cols : List String)
    (s : EngineState) (h : freshIds s) :
    ∃ m, m ≤ c ∧ SpawnEffect s (createConstellation env c cols s) [] m [] :=
  spawnEffect_iterFor_le (constellationBody env cols)
    (constellationBody_effect env cols) c s h

theorem createNebula_effect (env : MathEnv) (x y : ℚ) (c : ℕ) (cols : List String)
    (inten : ℚ) (s : EngineState) (h : freshIds s) :
    SpawnEffect s (createNebula env x y c cols inten s) [] c [] := by
  have h1 := spawnEffect_iterFor (nebulaDensityBody env x y inten) 0
    (nebulaDensityBody_effect env x y inten) 5 s h
  have h2 := spawnEffect_iterFor (nebulaBody env x y cols) 1
    (nebulaBody_effect env x y cols) c _ h1.fresh
  exact (h1.trans h2).congr (by simp) (by omega) (by simp)

theorem runScheduled_effect (env : MathEnv) (job : Scheduled) (s : EngineState)
    (h : freshIds s) : SpawnEffect s (runScheduled env job s) [] (pendingSpawnSize job) [] := by
  cases job with
  | supernovaSecondary x y c cols inten =>
      exact (spawnEffect_iterFor (supernovaSecondaryBody env x y cols inten) 1
        (supernovaSecondaryBody_effect env x y cols inten)
        (natsBelow ((c : ℚ) * (2/5))) s h).congr rfl (by simp [pendingSpawnSize]) rfl
  | resonancePulse x y =>
      exact spawnEffect_setFluid s (s.fluid ++ resonancePulseOps env x y) h
  | cascadeSpawn cols =>
      exact cascadeSpawnBody_effect env cols s h
  | emergenceSpawn x y i cols =>
      exact emergenceSpawnBody_effect env x y i cols s h

end Confetti

namespace Confetti

theorem applyAttractors_life_maxLife (env : MathEnv) (atts : List Attractor) (p : Particle) :
    (applyAttractors env atts p).life = p.life ∧
    (applyAttractors env atts p).maxLife = p.maxLife := by
  induction atts generalizing p with
  | nil => exact ⟨rfl, rfl⟩
  | cons a rest ih =>
      simp only [applyAttractors, List.foldl_cons] at *
      exact ih _

theorem updateParticle_basic (env : MathEnv) (s : EngineState) (dt : ℚ) (p : Particle) :
    (updateParticle env s dt p).life = p.life - dt ∧
    (updateParticle env s dt p).maxLife = p.maxLife ∧
    (updateParticle env s dt p).opacity = min 1 ((p.life - dt) / p.maxLife * 2) := by
  have hL := (applyAttractors_life_maxLife env s.attractors (trailPush p)).1
  have hM := (applyAttractors_life_maxLife env s.attractors (trailPush p)).2
  refine ⟨?_, ?_, ?_⟩
  · show (applyAttractors env s.attractors (trailPush p)).life - dt = p.life - dt
    rw [hL]
    rfl
  · show (applyAttractors env s.attractors (trailPush p)).maxLife = p.maxLife
    rw [hM]
    rfl
  · show min 1 (((applyAttractors env s.attractors (trailPush p)).life - dt)
        / (applyAttractors env s.attractors (trailPush p)).maxLife * 2)
      = min 1 ((p.life - dt) / p.maxLife * 2)
    rw [hL, hM]
    rfl

theorem animateStep_particles (env : MathEnv) (s : EngineState) :
    (animateStep env s).particles = (tickUpdatedParticles env (preTick env s)).filter
      (fun p => decide (0 < p.life) && decide (0 < p.opacity)) := by
  dsimp only [animateStep]
  split
  · rfl
  · rfl

theorem applyAttractors_id (env : MathEnv) (atts : List Attractor) (p : Particle) :
    (applyAttractors env atts p).id = p.id := by
  induction atts generalizing p with
  | nil => rfl
  | cons a rest ih =>
      simp only [applyAttractors, List.foldl_cons] at *
      exact ih _

theorem updateParticle_id (env : MathEnv) (s : EngineState) (dt : ℚ) (p : Particle) :
    (updateParticle env s dt p).id = p.id := by
  show (applyAttractors env s.attractors (trailPush p)).id = p.id
  rw [applyAttractors_id]
  rfl

theorem preTick_frame (env : MathEnv) (s : EngineState) :
    (preTick env s).particles = s.particles ∧
    (preTick env s).particleIdCounter = s.particleIdCounter ∧
    (preTick env s).enabled = s.enabled ∧
    (preTick env s).prefersReducedMotion = s.prefersReducedMotion := by
  obtain ⟨ps, ats, fl, fw, an, tm, ct, en, prm, lis, pend, ri⟩ := s
  cases lis with
  | none => exact ⟨rfl, rfl, rfl, rfl⟩
  | some l =>
      dsimp only [preTick]
      split
      · exact ⟨rfl, rfl, rfl, rfl⟩
      · exact ⟨rfl, rfl, rfl, rfl⟩

theorem animateStep_frame (env : MathEnv) (s : EngineState) :
    (animateStep env s).particleIdCounter = s.particleIdCounter ∧
    (animateStep env s).enabled = s.enabled ∧
    (animateStep env s).prefersReducedMotion = s.prefersReducedMotion := by
  obtain ⟨h1, h2, h3⟩ := (preTick_frame env s).2
  dsimp only [animateStep]
  split
  · exact ⟨h1, h2, h3⟩
  · exact ⟨h1, h2, h3⟩

theorem animateStep_fresh (env : MathEnv) (s : EngineState) (h : freshIds s) :
    freshIds (animateStep env s) := by
  intro p hp
  rw [animateStep_particles] at hp
  have hp2 := List.mem_of_mem_filter hp
  dsimp only [tickUpdatedParticles] at hp2
  obtain ⟨q, hq, rfl⟩ := List.mem_map.mp hp2
  rw [(preTick_frame env s).1] at hq
  rw [(animateStep_frame env s).1, updateParticle_id]
  exact h q hq

theorem animateStep_run_or_stop (env : MathEnv) (s : EngineState) :
    (animateStep env s).animationId = some 1 ∨
    ((animateStep env s).animationId = none ∧ (animateStep env s).particles = []) := by
  dsimp only [animateStep]
  split
  · rename_i hc
    right
    refine ⟨rfl, ?_⟩
    exact List.isEmpty_iff.mp ((Bool.and_eq_true _ _).mp hc).1
  · left
    rfl

theorem sum_map_one {α : Type} (l : List α) : (l.map (fun _ => (1 : ℕ))).sum = l.length := by
  induction l with
  | nil => rfl
  | cons a t ih =>
      simp [ih]
      omega

theorem sum_map_zero {α : Type} (l : List α) : (l.map (fun _ => (0 : ℕ))).sum = 0 := by
  induction l with
  | nil => rfl
  | cons a t ih => simp [ih]

theorem blend_normSq (dx dy dist f cPerp cRad : ℚ) (hd : dist ≠ 0)
    (hdist : dist * dist = dx * dx + dy * dy) :
    ((-dy / dist * f * cPerp + dx / dist * f * cRad)
        * (-dy / dist * f * cPerp + dx / dist * f * cRad)
      + (dx / dist * f * cPerp + dy / dist * f * cRad)
        * (dx / dist * f * cPerp + dy / dist * f * cRad))
      = (cPerp * cPerp + cRad * cRad) * f * f := by
  have key : (-dy / dist * f * cPerp + dx / dist * f * cRad)
        * (-dy / dist * f * cPerp + dx / dist * f * cRad)
      + (dx / dist * f * cPerp + dy / dist * f * cRad)
        * (dx / dist * f * cPerp + dy / dist * f * cRad)
      = (cPerp * cPerp + cRad * cRad) * f * f * ((dx * dx + dy * dy) / (dist * dist)) := by
    field_simp
    ring
  rw [key, ← hdist, div_self (mul_ne_zero hd hd), mul_one]

theorem nebulaDensity_fluid_length (env : MathEnv) (x y inten : ℚ) (s : EngineState) :
    (iterFor 5 (nebulaDensityBody env x y inten) s).fluid.length = s.fluid.length + 5 := by
  show (nebulaDensityBody env x y inten 4 (nebulaDensityBody env x y inten 3
    (nebulaDensityBody env x y inten 2 (nebulaDensityBody env x y inten 1
      (nebulaDensityBody env x y inten 0 s))))).fluid.length = s.fluid.length + 5
  simp [nebulaDensityBody]

end Confetti

namespace Confetti

theorem celebrateSpawn_known (env : MathEnv) (cfg : CelebrationConfig) (s : EngineState)
    (h : freshIds s) (hk : cfg.type ∈ recipeNames) :
    (∃ l : List Particle, (celebrateSpawn env cfg s).particles = s.particles ++ l) ∧
    (celebrateSpawn env cfg s).attractors = recipeAttractors env cfg ∧
    (celebrateSpawn env cfg s).animationId = s.animationId ∧
    (celebrateSpawn env cfg s).enabled = s.enabled ∧
    (celebrateSpawn env cfg s).prefersReducedMotion = s.prefersReducedMotion ∧
    freshIds (celebrateSpawn env cfg s) := by
  have h0 : freshIds { s with attractors := ([] : List Attractor) } := h
  simp only [recipeNames, List.mem_cons, List.not_mem_nil, or_false] at hk
  rcases hk with he | he | he | he | he | he | he | he | he | he | he | he
  · have e := createVortex_effect env ((cfg.origin.getD (1/2, 1/2)).1 * env.innerWidth) ((cfg.origin.getD (1/2, 1/2)).2 * env.innerHeight) (cfg.count.getD 100) (cfg.colors.getD (getColorsForEmotion cfg.dominantEmotion)) (cfg.intensity.getD 1) { s with attractors := ([] : List Attractor) } h0
    have hcs : celebrateSpawn env cfg s = createVortex env ((cfg.origin.getD (1/2, 1/2)).1 * env.innerWidth) ((cfg.origin.getD (1/2, 1/2)).2 * env.innerHeight) (cfg.count.getD 100) (cfg.colors.getD (getColorsForEmotion cfg.dominantEmotion)) (cfg.intensity.getD 1) { s with attractors := ([] : List Attractor) } := by
      unfold celebrateSpawn
      rw [he]
      rfl
    have hAtt : recipeAttractors env cfg = [(⟨(cfg.origin.getD (1/2, 1/2)).1 * env.innerWidth, (cfg.origin.getD (1/2, 1/2)).2 * env.innerHeight, 200 * (cfg.intensity.getD 1), 400, AttractorType.vortex⟩ : Attractor)] := by
      unfold recipeAttractors
      rw [he]
      rfl
    rcases e.particlesEq with ⟨l, hl, _⟩
    rw [hcs, hAtt]
    exact ⟨⟨l, hl⟩, by simpa using e.attractorsEq, e.animationIdEq, e.enabledEq, e.prmEq, e.fresh⟩
  · have e := createSupernova_effect env ((cfg.origin.getD (1/2, 1/2)).1 * env.innerWidth) ((cfg.origin.getD (1/2, 1/2)).2 * env.innerHeight) (cfg.count.getD 100) (cfg.colors.getD (getColorsForEmotion cfg.dominantEmotion)) (cfg.intensity.getD 1) { s with attractors := ([] : List Attractor) } h0
    have hcs : celebrateSpawn env cfg s = createSupernova env ((cfg.origin.getD (1/2, 1/2)).1 * env.innerWidth) ((cfg.origin.getD (1/2, 1/2)).2 * env.innerHeight) (cfg.count.getD 100) (cfg.colors.getD (getColorsForEmotion cfg.dominantEmotion)) (cfg.intensity.getD 1) { s with attractors := ([] : List Attractor) } := by
      unfold celebrateSpawn
      rw [he]
      rfl
    have hAtt : recipeAttractors env cfg = ([] : List Attractor) := by
      unfold recipeAttractors
      rw [he]
      rfl
    rcases e.particlesEq with ⟨l, hl, _⟩
    rw [hcs, hAtt]
    exact ⟨⟨l, hl⟩, by simpa using e.attractorsEq, e.animationIdEq, e.enabledEq, e.prmEq, e.fresh⟩
  · have e := createAurora_effect env (cfg.count.getD 100) (cfg.colors.getD (getColorsForEmotion cfg.dominantEmotion)) (cfg.intensity.getD 1) { s with attractors := ([] : List Attractor) } h0
    have hcs : celebrateSpawn env cfg s = createAurora env (cfg.count.getD 100) (cfg.colors.getD (getColorsForEmotion cfg.dominantEmotion)) (cfg.intensity.getD 1) { s with attractors := ([] : List Attractor) } := by
      unfold celebrateSpawn
      rw [he]
      rfl
    have hAtt : recipeAttractors env cfg = ([] : List Attractor) := by
      unfold recipeAttractors
      rw [he]
      rfl
    rcases e.particlesEq with ⟨l, hl, _⟩
    rw [hcs, hAtt]
    exact ⟨⟨l, hl⟩, by simpa using e.attractorsEq, e.animationIdEq, e.enabledEq, e.prmEq, e.fresh⟩
  · have e := createResonance_effect env ((cfg.origin.getD (1/2, 1/2)).1 * env.innerWidth) ((cfg.origin.getD (1/2, 1/2)).2 * env.innerHeight) (cfg.count.getD 100) (cfg.colors.getD (getColorsForEmotion cfg.dominantEmotion)) (cfg.intensity.getD 1) cfg.heartRate { s with attractors := ([] : List Attractor) } h0
    have hcs : celebrateSpawn env cfg s = createResonance env ((cfg.origin.getD (1/2, 1/2)).1 * env.innerWidth) ((cfg.origin.getD (1/2, 1/2)).2 * env.innerHeight) (cfg.count.getD 100) (cfg.colors.getD (getColorsForEmotion cfg.dominantEmotion)) (cfg.intensity.getD 1) cfg.heartRate { s with attractors := ([] : List Attractor) } := by
      unfold celebrateSpawn
      rw [he]
      rfl
    have hAtt : recipeAttractors env cfg = [(⟨(cfg.origin.getD (1/2, 1/2)).1 * env.innerWidth, (cfg.origin.getD (1/2, 1/2)).2 * env.innerHeight, 150 * (cfg.intensity.getD 1), 300, AttractorType.pull⟩ : Attractor)] := by
      unfold recipeAttractors
      rw [he]
      rfl
    rcases e.particlesEq with ⟨l, hl, _⟩
    rw [hcs, hAtt]
    exact ⟨⟨l, hl⟩, by simpa using e.attractorsEq, e.animationIdEq, e.enabledEq, e.prmEq, e.fresh⟩
  · have e := createOrbit_effect env ((cfg.origin.getD (1/2, 1/2)).1 * env.innerWidth) ((cfg.origin.getD (1/2, 1/2)).2 * env.innerHeight) (cfg.count.getD 100) (cfg.colors.getD (getColorsForEmotion cfg.dominantEmotion)) (cfg.intensity.getD 1) { s with attractors := ([] : List Attractor) } h0
    have hcs : celebrateSpawn env cfg s = createOrbit env ((cfg.origin.getD (1/2, 1/2)).1 * env.innerWidth) ((cfg.origin.getD (1/2, 1/2)).2 * env.innerHeight) (cfg.count.getD 100) (cfg.colors.getD (getColorsForEmotion cfg.dominantEmotion)) (cfg.intensity.getD 1) { s with attractors := ([] : List Attractor) } := by
      unfold celebrateSpawn
      rw [he]
      rfl
    have hAtt : recipeAttractors env cfg = [(⟨(cfg.origin.getD (1/2, 1/2)).1 * env.innerWidth, (cfg.origin.getD (1/2, 1/2)).2 * env.innerHeight, 300 * (cfg.intensity.getD 1), 250, AttractorType.orbit⟩ : Attractor), ⟨(cfg.origin.getD (1/2, 1/2)).1 * env.innerWidth - 150, (cfg.origin.getD (1/2, 1/2)).2 * env.innerHeight + 100, 200 * (cfg.intensity.getD 1), 250, AttractorType.orbit⟩, ⟨(cfg.origin.getD (1/2, 1/2)).1 * env.innerWidth + 150, (cfg.origin.getD (1/2, 1/2)).2 * env.innerHeight + 100, 200 * (cfg.intensity.getD 1), 250, AttractorType.orbit⟩] := by
      unfold recipeAttractors
      rw [he]
      rfl
    rcases e.particlesEq with ⟨l, hl, _⟩
    rw [hcs, hAtt]
    exact ⟨⟨l, hl⟩, by simpa using e.attractorsEq, e.animationIdEq, e.enabledEq, e.prmEq, e.fresh⟩
  · have e := createCascade_effect env (cfg.count.getD 100) (cfg.colors.getD (getColorsForEmotion cfg.dominantEmotion)) (cfg.intensity.getD 1) { s with attractors := ([] : List Attractor) } h0
    have hcs : celebrateSpawn env cfg s = createCascade env (cfg.count.getD 100) (cfg.colors.getD (getColorsForEmotion cfg.dominantEmotion)) (cfg.intensity.getD 1) { s with attractors := ([] : List Attractor) } := by
      unfold celebrateSpawn
      rw [he]
      rfl
    have hAtt : recipeAttractors env cfg = ([] : List Attractor) := by
      unfold recipeAttractors
      rw [he]
      rfl
    rcases e.particlesEq with ⟨l, hl, _⟩
    rw [hcs, hAtt]
    exact ⟨⟨l, hl⟩, by simpa using e.attractorsEq, e.animationIdEq, e.enabledEq, e.prmEq, e.fresh⟩
  · have e := createEmergence_effect env ((cfg.origin.getD (1/2, 1/2)).1 * env.innerWidth) ((cfg.origin.getD (1/2, 1/2)).2 * env.innerHeight) (cfg.count.getD 100) (cfg.colors.getD (getColorsForEmotion cfg.dominantEmotion)) (cfg.intensity.getD 1) { s with attractors := ([] : List Attractor) } h0
    have hcs : celebrateSpawn env cfg s = createEmergence env ((cfg.origin.getD (1/2, 1/2)).1 * env.innerWidth) ((cfg.origin.getD (1/2, 1/2)).2 * env.innerHeight) (cfg.count.getD 100) (cfg.colors.getD (getColorsForEmotion cfg.dominantEmotion)) (cfg.intensity.getD 1) { s with attractors := ([] : List Attractor) } := by
      unfold celebrateSpawn
      rw [he]
      rfl
    have hAtt : recipeAttractors env cfg = ([] : List Attractor) := by
      unfold recipeAttractors
      rw [he]
      rfl
    rcases e.particlesEq with ⟨l, hl, _⟩
    rw [hcs, hAtt]
    exact ⟨⟨l, hl⟩, by simpa using e.attractorsEq, e.animationIdEq, e.enabledEq, e.prmEq, e.fresh⟩
  · have e := createHarmony_effect env ((cfg.origin.getD (1/2, 1/2)).1 * env.innerWidth) ((cfg.origin.getD (1/2, 1/2)).2 * env.innerHeight) (cfg.count.getD 100) (cfg.colors.getD (getColorsForEmotion cfg.dominantEmotion)) (cfg.intensity.getD 1) { s with attractors := ([] : List Attractor) } h0
    have hcs : celebrateSpawn env cfg s = createHarmony env ((cfg.origin.getD (1/2, 1/2)).1 * env.innerWidth) ((cfg.origin.getD (1/2, 1/2)).2 * env.innerHeight) (cfg.count.getD 100) (cfg.colors.getD (getColorsForEmotion cfg.dominantEmotion)) (cfg.intensity.getD 1) { s with attractors := ([] : List Attractor) } := by
      unfold celebrateSpawn
      rw [he]
      rfl
    have hAtt : recipeAttractors env cfg = [(⟨(cfg.origin.getD (1/2, 1/2)).1 * env.innerWidth, (cfg.origin.getD (1/2, 1/2)).2 * env.innerHeight, 100 * (cfg.intensity.getD 1), 200, AttractorType.pull⟩ : Attractor), ⟨(cfg.origin.getD (1/2, 1/2)).1 * env.innerWidth, (cfg.origin.getD (1/2, 1/2)).2 * env.innerHeight, 100 * (cfg.intensity.getD 1), 200, AttractorType.pull⟩, ⟨(cfg.origin.getD (1/2, 1/2)).1 * env.innerWidth, (cfg.origin.getD (1/2, 1/2)).2 * env.innerHeight, 100 * (cfg.intensity.getD 1), 200, AttractorType.pull⟩] := by
      unfold recipeAttractors
      rw [he]
      rfl
    rcases e.particlesEq with ⟨l, hl, _⟩
    rw [hcs, hAtt]
    exact ⟨⟨l, hl⟩, by simpa using e.attractorsEq, e.animationIdEq, e.enabledEq, e.prmEq, e.fresh⟩
  · have e := createHelix_effect env ((cfg.origin.getD (1/2, 1/2)).1 * env.innerWidth) ((cfg.origin.getD (1/2, 1/2)).2 * env.innerHeight) (cfg.count.getD 100) (cfg.colors.getD (getColorsForEmotion cfg.dominantEmotion)) (cfg.intensity.getD 1) { s with attractors := ([] : List Attractor) } h0
    have hcs : celebrateSpawn env cfg s = createHelix env ((cfg.origin.getD (1/2, 1/2)).1 * env.innerWidth) ((cfg.origin.getD (1/2, 1/2)).2 * env.innerHeight) (cfg.count.getD 100) (cfg.colors.getD (getColorsForEmotion cfg.dominantEmotion)) (cfg.intensity.getD 1) { s with attractors := ([] : List Attractor) } := by
      unfold celebrateSpawn
      rw [he]
      rfl
    have hAtt : recipeAttractors env cfg = ([] : List Attractor) := by
      unfold recipeAttractors
      rw [he]
      rfl
    rcases e.particlesEq with ⟨l, hl, _⟩
    rw [hcs, hAtt]
    exact ⟨⟨l, hl⟩, by simpa using e.attractorsEq, e.animationIdEq, e.enabledEq, e.prmEq, e.fresh⟩
  · have e := createBloom_effect env ((cfg.origin.getD (1/2, 1/2)).1 * env.innerWidth) ((cfg.origin.getD (1/2, 1/2)).2 * env.innerHeight) (cfg.count.getD 100) (cfg.colors.getD (getColorsForEmotion cfg.dominantEmotion)) (cfg.intensity.getD 1) { s with attractors := ([] : List Attractor) } h0
    have hcs : celebrateSpawn env cfg s = createBloom env ((cfg.origin.getD (1/2, 1/2)).1 * env.innerWidth) ((cfg.origin.getD (1/2, 1/2)).2 * env.innerHeight) (cfg.count.getD 100) (cfg.colors.getD (getColorsForEmotion cfg.dominantEmotion)) (cfg.intensity.getD 1) { s with attractors := ([] : List Attractor) } := by
      unfold celebrateSpawn
      rw [he]
      rfl
    have hAtt : recipeAttractors env cfg = [(⟨(cfg.origin.getD (1/2, 1/2)).1 * env.innerWidth, (cfg.origin.getD (1/2, 1/2)).2 * env.innerHeight, 50 * (cfg.intensity.getD 1), 200, AttractorType.pull⟩ : Attractor)] := by
      unfold recipeAttractors
      rw [he]
      rfl
    rcases e.particlesEq with ⟨l, hl, _⟩
    rw [hcs, hAtt]
    exact ⟨⟨l, hl⟩, by simpa using e.attractorsEq, e.animationIdEq, e.enabledEq, e.prmEq, e.fresh⟩
  · obtain ⟨m, hm, e⟩ := createConstellation_effect env (cfg.count.getD 100) (cfg.colors.getD (getColorsForEmotion cfg.dominantEmotion)) { s with attractors := ([] : List Attractor) } h0
    have hcs : celebrateSpawn env cfg s = createConstellation env (cfg.count.getD 100) (cfg.colors.getD (getColorsForEmotion cfg.dominantEmotion)) { s with attractors := ([] : List Attractor) } := by
      unfold celebrateSpawn
      rw [he]
      rfl
    have hAtt : recipeAttractors env cfg = ([] : List Attractor) := by
      unfold recipeAttractors
      rw [he]
      rfl
    rcases e.particlesEq with ⟨l, hl, _⟩
    rw [hcs, hAtt]
    exact ⟨⟨l, hl⟩, by simpa using e.attractorsEq, e.animationIdEq, e.enabledEq, e.prmEq, e.fresh⟩
  · have e := createNebula_effect env ((cfg.origin.getD (1/2, 1/2)).1 * env.innerWidth) ((cfg.origin.getD (1/2, 1/2)).2 * env.innerHeight) (cfg.count.getD 100) (cfg.colors.getD (getColorsForEmotion cfg.dominantEmotion)) (cfg.intensity.getD 1) { s with attractors := ([] : List Attractor) } h0
    have hcs : celebrateSpawn env cfg s = createNebula env ((cfg.origin.getD (1/2, 1/2)).1 * env.innerWidth) ((cfg.origin.getD (1/2, 1/2)).2 * env.innerHeight) (cfg.count.getD 100) (cfg.colors.getD (getColorsForEmotion cfg.dominantEmotion)) (cfg.intensity.getD 1) { s with attractors := ([] : List Attractor) } := by
      unfold celebrateSpawn
      rw [he]
      rfl
    have hAtt : recipeAttractors env cfg = ([] : List Attractor) := by
      unfold recipeAttractors
      rw [he]
      rfl
    rcases e.particlesEq with ⟨l, hl, _⟩
    rw [hcs, hAtt]
    exact ⟨⟨l, hl⟩, by simpa using e.attractorsEq, e.animationIdEq, e.enabledEq, e.prmEq, e.fresh⟩

end Confetti

namespace Confetti

/-- C10: immediately after every addParticle call, the new particle has
opacity 1, an empty trail, zero acceleration, and maxLife equal to its
initial life; under the id-freshness invariant of the particle map the
fresh id (the current counter value) never overwrites an existing entry,
so the live particle count grows by exactly one and the counter
advances. -/
theorem C10_addParticle_spec (env : MathEnv) (cfg : PConfig) (s : EngineState)
    (h : freshIds s) :
    (addParticle env cfg s).particles = s.particles ++ [newParticle env cfg s] ∧
    (addParticle env cfg s).particles.length = s.particles.length + 1 ∧
    (newParticle env cfg s).opacity = 1 ∧
    (newParticle env cfg s).trail = [] ∧
    (newParticle env cfg s).ax = 0 ∧
    (newParticle env cfg s).ay = 0 ∧
    (newParticle env cfg s).maxLife = (newParticle env cfg s).life ∧
    (newParticle env cfg s).id = s.particleIdCounter ∧
    (addParticle env cfg s).particleIdCounter = s.particleIdCounter + 1 := by
  have hp := addParticle_particles env cfg s h
  refine ⟨hp, ?_, rfl, rfl, rfl, rfl, rfl, rfl, rfl⟩
  rw [hp]
  simp

/-- Witness for C10 at a concrete input: the default config added to the
fresh engine state. -/
theorem C10_addParticle_spec_witness :
    freshIds initState ∧
    (addParticle testEnv {} initState).particles.length
      = initState.particles.length + 1 ∧
    (newParticle testEnv {} initState).opacity = 1 := by
  have h : freshIds initState := by
    intro p hp
    simp [initState] at hp
  exact ⟨h, (C10_addParticle_spec testEnv {} initState h).2.1,
    (C10_addParticle_spec testEnv {} initState h).2.2.1⟩

/-- C8: isEnabled is false exactly when the engine is disabled or the
reduced-motion preference is active, and while it is false celebrate
returns the state unchanged (hence particle map, attractor list and
fields are untouched and no error occurs). -/
theorem C8_disabled_noop (env : MathEnv) (cfg : CelebrationConfig) (s : EngineState) :
    (isEnabled s = false ↔ (s.enabled = false ∨ s.prefersReducedMotion = true)) ∧
    (isEnabled s = false → celebrate env cfg s = s) := by
  constructor
  · unfold isEnabled
    cases hb : s.enabled <;> cases hp : s.prefersReducedMotion <;> simp
  · intro hd
    unfold celebrate
    rw [if_neg (by simp [hd])]

/-- Witness for C8 at a concrete input: a disabled state carrying a
particle and an attractor, on which celebrate is the identity. -/
theorem C8_disabled_noop_witness :
    isEnabled disabledBusyState = false ∧
    celebrate testEnv { type := "vortex" } disabledBusyState = disabledBusyState :=
  ⟨by decide, (C8_disabled_noop testEnv { type := "vortex" } disabledBusyState).2 (by decide)⟩

/-- C6: the opacity recomputed by each tick of updateParticle equals
min(1, life/maxLife * 2) evaluated at the decremented life; it is 1
whenever the decremented life is at least half of maxLife, it is
monotone in life (hence non-increasing as life decreases), and it is 0
exactly when the decremented life is 0 (given maxLife positive). -/
theorem C6_opacity_law (env : MathEnv) (s : EngineState) (dt : ℚ) (p : Particle)
    (hm : 0 < p.maxLife) :
    (updateParticle env s dt p).life = p.life - dt ∧
    (updateParticle env s dt p).maxLife = p.maxLife ∧
    (updateParticle env s dt p).opacity
      = opacityOf p.maxLife ((updateParticle env s dt p).life) ∧
    (p.maxLife / 2 ≤ (updateParticle env s dt p).life →
      (updateParticle env s dt p).opacity = 1) ∧
    (∀ l1 l2 : ℚ, l1 ≤ l2 → opacityOf p.maxLife l1 ≤ opacityOf p.maxLife l2) ∧
    ((updateParticle env s dt p).opacity = 0 ↔ (updateParticle env s dt p).life = 0) := by
  obtain ⟨hl, hM, ho⟩ := updateParticle_basic env s dt p
  have hmono : ∀ l1 l2 : ℚ, l1 ≤ l2 → opacityOf p.maxLife l1 ≤ opacityOf p.maxLife l2 := by
    intro l1 l2 h12
    unfold opacityOf
    refine min_le_min (le_refl 1) ?_
    have hdiv : l1 / p.maxLife ≤ l2 / p.maxLife := by
      gcongr
    linarith
  refine ⟨hl, hM, ?_, ?_, hmono, ?_⟩
  · rw [ho, hl]
    rfl
  · intro hhalf
    rw [hl] at hhalf
    rw [ho]
    have h2 : (1 : ℚ) ≤ (p.life - dt) / p.maxLife * 2 := by
      rw [div_mul_eq_mul_div, le_div_iff₀ hm]
      linarith
    exact min_eq_left h2
  · rw [ho, hl]
    constructor
    · intro h0
      rcases le_or_lt ((p.life - dt) / p.maxLife * 2) 1 with hle | hgt
      · rw [min_eq_right hle] at h0
        have hm0 : p.maxLife ≠ 0 := ne_of_gt hm
        field_simp at h0
        linarith
      · rw [min_eq_left (le_of_lt hgt)] at h0
        norm_num at h0
    · intro h0
      rw [h0]
      simp

/-- Witness for C6 at a concrete input: a particle halfway through its
150-tick life keeps opacity 1 after a tick. -/
theorem C6_opacity_law_witness :
    (0 : ℚ) < midlifeParticle.maxLife ∧
    (updateParticle testEnv initState 1 midlifeParticle).opacity
      = opacityOf midlifeParticle.maxLife ((updateParticle testEnv initState 1 midlifeParticle).life) :=
  ⟨by decide, (C6_opacity_law testEnv initState 1 midlifeParticle (by decide)).2.2.1⟩

/-- C4 counterexample: a live particle whose remaining life is half a
tick (reachable because recipe lives carry a `Math.random()` fractional
part while each tick subtracts exactly 1) still sits in the particle
map during the tick after its update, but its recomputed opacity is
-1/150, outside [0,1]: `min(1, x)` clamps only from above.  It is
pruned only at the end of that same tick. -/
theorem C4_counterexample :
    (tickUpdatedParticles testEnv (preTick testEnv dyingState)).map Particle.opacity
      = [-(1/150)] ∧
    (-(1/150) : ℚ) < 0 := by
  constructor
  · decide
  · decide

/-- C4 (amended): after each tick (once pruning has run) every particle
in the map has opacity in (0, 1], and every opacity the per-tick update
computes is at most 1; the [0,1] claim fails only transiently mid-tick
for a particle whose life has just gone negative (see the
counterexample), which is pruned at the end of the same tick. -/
theorem C4_opacity_bounds (env : MathEnv) (s : EngineState) :
    (∀ p ∈ (animateStep env s).particles, 0 < p.opacity ∧ p.opacity ≤ 1) ∧
    (∀ p ∈ tickUpdatedParticles env (preTick env s), p.opacity ≤ 1) := by
  have hup : ∀ q : Particle, (updateParticle env (preTick env s) 1 q).opacity ≤ 1 := by
    intro q
    rw [(updateParticle_basic env (preTick env s) 1 q).2.2]
    exact min_le_left _ _
  constructor
  · intro p hp
    rw [animateStep_particles] at hp
    have h1 := List.of_mem_filter hp
    have h2 := List.mem_of_mem_filter hp
    constructor
    · have := (Bool.and_eq_true _ _).mp h1
      exact of_decide_eq_true this.2
    · rcases List.mem_map.mp h2 with ⟨q, hq, hpq⟩
      rw [← hpq]
      exact hup q
  · intro p hp
    rcases List.mem_map.mp hp with ⟨q, hq, hpq⟩
    rw [← hpq]
    exact hup q

end Confetti

namespace Confetti

/-- C5 counterexample: for an orbit attractor at distance 5 (a 3-4-5
right triangle, so 5 is the exact value `Math.sqrt` computes) inside
its radius, the euclidean magnitude of the acceleration contribution is
not the scalar `strength * (1 - d/r)^2 / (d^2 + 100)`: the orbit kind
blends 0.7 perpendicular with 0.3 radial, scaling the magnitude by
sqrt(0.58).  Squared norms are compared to stay within rational
arithmetic. -/
theorem C5_counterexample :
    (5 : ℚ) * 5 = (orbitAttractor.x - 0) * (orbitAttractor.x - 0)
        + (orbitAttractor.y - 0) * (orbitAttractor.y - 0) ∧
    (1/10 < (5 : ℚ) ∧ (5 : ℚ) < orbitAttractor.radius) ∧
    normSq (attractorContrib orbitAttractor 0 0 5)
      ≠ forceMagFormula orbitAttractor 5 * forceMagFormula orbitAttractor 5 ∧
    normSq (attractorContrib orbitAttractor 0 0 5) = 29/1250 ∧
    forceMagFormula orbitAttractor 5 = 1/5 := by
  refine ⟨by decide, ⟨by decide, by decide⟩, by decide, by decide, by decide⟩

/-- C5 (amended): the contribution of an attractor to a particle is
(0,0) whenever the distance is outside the open interval
(0.1, radius) — so no division by a distance below the guard ever
occurs — and inside the interval its squared magnitude is the squared
scalar `strength * (1 - d/r)^2 / (d^2 + 100)` (softening constant 100)
times a kind-dependent factor: 1 for pull and push (purely radial unit
direction), 0.58 for orbit (0.7 perpendicular + 0.3 radial) and 0.89
for vortex (0.8 perpendicular + 0.5 radial). -/
theorem C5_force_contribution (a : Attractor) (px py dist : ℚ)
    (hdist : dist * dist = (a.x - px) * (a.x - px) + (a.y - py) * (a.y - py)) :
    (¬(1/10 < dist ∧ dist < a.radius) → attractorContrib a px py dist = (0, 0)) ∧
    (1/10 < dist → dist < a.radius →
      normSq (attractorContrib a px py dist)
        = kindFactor a.type * (forceMagFormula a dist * forceMagFormula a dist)) := by
  constructor
  · intro hn
    unfold attractorContrib
    rw [if_neg (by tauto)]
  · intro h1 h2
    have hd : dist ≠ 0 := ne_of_gt (lt_trans (by norm_num) h1)
    obtain ⟨ax2, ay2, st, rad, ty⟩ := a
    dsimp only at hdist h2 ⊢
    unfold attractorContrib normSq
    rw [if_pos ⟨h2, h1⟩]
    cases ty
    · dsimp only [kindFactor]
      have hb := blend_normSq (ax2 - px) (ay2 - py) dist
        (forceMagFormula ⟨ax2, ay2, st, rad, AttractorType.pull⟩ dist) 0 1 hd hdist
      linear_combination hb
    · dsimp only [kindFactor]
      have hb := blend_normSq (ax2 - px) (ay2 - py) dist
        (forceMagFormula ⟨ax2, ay2, st, rad, AttractorType.push⟩ dist) 0 (-1) hd hdist
      linear_combination hb
    · dsimp only [kindFactor]
      have hb := blend_normSq (ax2 - px) (ay2 - py) dist
        (forceMagFormula ⟨ax2, ay2, st, rad, AttractorType.orbit⟩ dist) (7/10) (3/10) hd hdist
      linear_combination hb
    · dsimp only [kindFactor]
      have hb := blend_normSq (ax2 - px) (ay2 - py) dist
        (forceMagFormula ⟨ax2, ay2, st, rad, AttractorType.vortex⟩ dist) (8/10) (5/10) hd hdist
      linear_combination hb

/-- Witness for C5 at a concrete input: same 3-4-5 geometry with a pull
attractor; the hypothesis and both range conditions are discharged
numerically. -/
theorem C5_force_contribution_witness :
    ((5 : ℚ) * 5 = (pullAttractor.x - 0) * (pullAttractor.x - 0)
        + (pullAttractor.y - 0) * (pullAttractor.y - 0)) ∧
    normSq (attractorContrib pullAttractor 0 0 5)
      = kindFactor pullAttractor.type
        * (forceMagFormula pullAttractor 5 * forceMagFormula pullAttractor 5) :=
  ⟨by decide,
    (C5_force_contribution pullAttractor 0 0 5 (by decide)).2 (by decide) (by decide)⟩

/-- The switch in celebrate has no case for an unknown recipe name, so
the synchronous body only resolves defaults and replaces the attractor
list with the empty list. -/
theorem celebrateSpawn_unknown (env : MathEnv) (cfg : CelebrationConfig)
    (s : EngineState) (hu : cfg.type ∉ recipeNames) :
    celebrateSpawn env cfg s = { s with attractors := [] } := by
  have hne : ∀ nm, nm ∈ recipeNames → cfg.type ≠ nm := fun nm hnm he => hu (he ▸ hnm)
  have h1 : cfg.type ≠ "vortex" := hne _ (by simp [recipeNames])
  have h2 : cfg.type ≠ "supernova" := hne _ (by simp [recipeNames])
  have h3 : cfg.type ≠ "aurora" := hne _ (by simp [recipeNames])
  have h4 : cfg.type ≠ "resonance" := hne _ (by simp [recipeNames])
  have h5 : cfg.type ≠ "orbit" := hne _ (by simp [recipeNames])
  have h6 : cfg.type ≠ "cascade" := hne _ (by simp [recipeNames])
  have h7 : cfg.type ≠ "emergence" := hne _ (by simp [recipeNames])
  have h8 : cfg.type ≠ "harmony" := hne _ (by simp [recipeNames])
  have h9 : cfg.type ≠ "helix" := hne _ (by simp [recipeNames])
  have h10 : cfg.type ≠ "bloom" := hne _ (by simp [recipeNames])
  have h11 : cfg.type ≠ "constellation" := hne _ (by simp [recipeNames])
  have h12 : cfg.type ≠ "nebula" := hne _ (by simp [recipeNames])
  unfold celebrateSpawn
  simp only [if_neg h1, if_neg h2, if_neg h3, if_neg h4, if_neg h5, if_neg h6,
    if_neg h7, if_neg h8, if_neg h9, if_neg h10, if_neg h11, if_neg h12]

/-- C3 counterexample: an unknown recipe name is not a full no-op.
After a vortex celebration the attractor list is nonempty; a subsequent
celebrate call with the unknown name "sparkle" spawns nothing but
clears that attractor list, changing the engine state. -/
theorem C3_counterexample :
    (celebrate testEnv { type := "vortex", count := some 1 } initState).attractors ≠ [] ∧
    celebrate testEnv { type := "sparkle" }
        (celebrate testEnv { type := "vortex", count := some 1 } initState)
      ≠ celebrate testEnv { type := "vortex", count := some 1 } initState ∧
    (celebrate testEnv { type := "sparkle" }
        (celebrate testEnv { type := "vortex", count := some 1 } initState)).particles
      = (celebrate testEnv { type := "vortex", count := some 1 } initState).particles ∧
    (celebrate testEnv { type := "sparkle" }
        (celebrate testEnv { type := "vortex", count := some 1 } initState)).attractors
      = [] := by
  refine ⟨by decide, by decide, by decide, by decide⟩

/-- C3 (amended): celebrating an unknown recipe name spawns no
particles, installs no attractors and throws nothing (the model is a
total function), but it is not a state-preserving no-op: it clears the
previously installed attractor list, and when the scheduler is idle it
additionally runs one animation frame.  While the engine is disabled it
is a full no-op. -/
theorem C3_unknown_recipe (env : MathEnv) (cfg : CelebrationConfig) (s : EngineState)
    (hu : cfg.type ∉ recipeNames) :
    celebrateSpawn env cfg s = { s with attractors := [] } ∧
    (isEnabled s = false → celebrate env cfg s = s) ∧
    (isEnabled s = true → s.animationId ≠ none →
      celebrate env cfg s = { s with attractors := [] }) := by
  have hcs := celebrateSpawn_unknown env cfg s hu
  refine ⟨hcs, ?_, ?_⟩
  · intro hd
    unfold celebrate
    rw [if_neg (by simp [hd])]
  · intro hE hA
    unfold celebrate
    rw [if_pos hE, hcs, if_neg (by simpa using hA)]

/-- Witness for C3 at a concrete input: the unknown name "sparkle" on a
state whose animation frame is pending. -/
theorem C3_unknown_recipe_witness :
    ("sparkle" ∉ recipeNames) ∧
    celebrate testEnv { type := "sparkle" } dyingState
      = { dyingState with attractors := [] } := by
  have hu : ("sparkle" : String) ∉ recipeNames := by decide
  exact ⟨hu, (C3_unknown_recipe testEnv { type := "sparkle" } dyingState hu).2.2
    (by decide) (by decide)⟩

end Confetti

namespace Confetti

theorem sum_spawnSizes_append (P Q : List PendingTimeout) :
    ((P ++ Q).map (fun t => pendingSpawnSize t.job)).sum
      = (P.map (fun t => pendingSpawnSize t.job)).sum
        + (Q.map (fun t => pendingSpawnSize t.job)).sum := by
  simp

/-- C9: with a requested count of 0 every recipe spawns no particle at
all — neither synchronously nor through its delayed callbacks (the
pending spawn total is unchanged; the supernova secondary callback and
the five resonance pulses are still scheduled but spawn nothing) — yet
the attractor and field setup still happens: the attractor list equals
the recipe's attractor list, vortex and supernova apply their fluid
impulses, aurora, cascade and emergence seed their flow-field sources,
resonance schedules its pulses, and nebula adds its five density
bumps.  Everything is a total function, so no crash is possible. -/
theorem C9_zero_count (env : MathEnv) (s : EngineState) (origin : ℚ × ℚ)
    (colors : List String) (inten : ℚ) (hr : Option ℚ) :
    (∀ name ∈ recipeNames,
      (celebrateSpawn env (mkRecipeCfg name 0 origin colors inten hr) s).particles
        = s.particles ∧
      pendingSpawnTotal (celebrateSpawn env (mkRecipeCfg name 0 origin colors inten hr) s)
        = pendingSpawnTotal s ∧
      (celebrateSpawn env (mkRecipeCfg name 0 origin colors inten hr) s).attractors
        = recipeAttractors env (mkRecipeCfg name 0 origin colors inten hr)) ∧
    (celebrateSpawn env (mkRecipeCfg "vortex" 0 origin colors inten hr) s).fluid
      = s.fluid ++ [FluidOp.addForce (origin.1 * env.innerWidth / 20)
          (origin.2 * env.innerHeight / 20) 0 (-50 * inten) 10] ∧
    (celebrateSpawn env (mkRecipeCfg "supernova" 0 origin colors inten hr) s).fluid
      = s.fluid ++ supernovaShock env (origin.1 * env.innerWidth) (origin.2 * env.innerHeight) inten ∧
    (celebrateSpawn env (mkRecipeCfg "aurora" 0 origin colors inten hr) s).flow
      = auroraSources env inten ∧
    (celebrateSpawn env (mkRecipeCfg "cascade" 0 origin colors inten hr) s).flow
      = cascadeSources env inten ∧
    (celebrateSpawn env (mkRecipeCfg "emergence" 0 origin colors inten hr) s).flow
      = emergenceSources env (origin.1 * env.innerWidth) (origin.2 * env.innerHeight) inten ∧
    (celebrateSpawn env (mkRecipeCfg "resonance" 0 origin colors inten hr) s).pending
      = s.pending ++ resonanceJobs (origin.1 * env.innerWidth) (origin.2 * env.innerHeight) (60000 / hr.getD 72) ∧
    (celebrateSpawn env (mkRecipeCfg "nebula" 0 origin colors inten hr) s).fluid.length
      = s.fluid.length + 5 := by
  refine ⟨?_, ?_, ?_, ?_, ?_, ?_, ?_, ?_⟩
  · intro name hn
    simp only [recipeNames, List.mem_cons, List.not_mem_nil, or_false] at hn
    rcases hn with he | he | he | he | he | he | he | he | he | he | he | he
    all_goals subst he
    · have hd : celebrateSpawn env (mkRecipeCfg "vortex" 0 origin colors inten hr) s
          = createVortex env (origin.1 * env.innerWidth) (origin.2 * env.innerHeight) 0 colors inten { s with attractors := [] } := rfl
      rw [hd]
      refine ⟨rfl, ?_, rfl⟩
      unfold pendingSpawnTotal
      rfl
    · have hd : celebrateSpawn env (mkRecipeCfg "supernova" 0 origin colors inten hr) s
          = createSupernova env (origin.1 * env.innerWidth) (origin.2 * env.innerHeight) 0 colors inten { s with attractors := [] } := rfl
      rw [hd]
      refine ⟨rfl, ?_, rfl⟩
      have hp : (createSupernova env (origin.1 * env.innerWidth) (origin.2 * env.innerHeight) 0 colors inten { s with attractors := [] }).pending
          = s.pending ++ [⟨100, Scheduled.supernovaSecondary (origin.1 * env.innerWidth) (origin.2 * env.innerHeight) 0 colors inten⟩] := rfl
      unfold pendingSpawnTotal
      rw [hp, sum_spawnSizes_append]
      norm_num [pendingSpawnSize, natsBelow]
    · have hd : celebrateSpawn env (mkRecipeCfg "aurora" 0 origin colors inten hr) s
          = createAurora env 0 colors inten { s with attractors := [] } := rfl
      rw [hd]
      refine ⟨rfl, ?_, rfl⟩
      unfold pendingSpawnTotal
      rfl
    · have hd : celebrateSpawn env (mkRecipeCfg "resonance" 0 origin colors inten hr) s
          = createResonance env (origin.1 * env.innerWidth) (origin.2 * env.innerHeight) 0 colors inten hr { s with attractors := [] } := rfl
      rw [hd]
      refine ⟨rfl, ?_, rfl⟩
      have hp : (createResonance env (origin.1 * env.innerWidth) (origin.2 * env.innerHeight) 0 colors inten hr { s with attractors := [] }).pending
          = s.pending ++ resonanceJobs (origin.1 * env.innerWidth) (origin.2 * env.innerHeight) (60000 / hr.getD 72) := rfl
      unfold pendingSpawnTotal
      rw [hp, sum_spawnSizes_append]
      have hz : ((resonanceJobs (origin.1 * env.innerWidth) (origin.2 * env.innerHeight)
          (60000 / hr.getD 72)).map (fun t => pendingSpawnSize t.job)).sum = 0 := rfl
      rw [hz]
      omega
    · have hd : celebrateSpawn env (mkRecipeCfg "orbit" 0 origin colors inten hr) s
          = createOrbit env (origin.1 * env.innerWidth) (origin.2 * env.innerHeight) 0 colors inten { s with attractors := [] } := rfl
      rw [hd]
      refine ⟨rfl, ?_, rfl⟩
      unfold pendingSpawnTotal
      rfl
    · have hd : celebrateSpawn env (mkRecipeCfg "cascade" 0 origin colors inten hr) s
          = createCascade env 0 colors inten { s with attractors := [] } := rfl
      rw [hd]
      refine ⟨rfl, ?_, rfl⟩
      have hp : (createCascade env 0 colors inten { s with attractors := [] }).pending
          = s.pending ++ ([] : List PendingTimeout) := rfl
      unfold pendingSpawnTotal
      rw [hp, sum_spawnSizes_append]
      simp
    · have hd : celebrateSpawn env (mkRecipeCfg "emergence" 0 origin colors inten hr) s
          = createEmergence env (origin.1 * env.innerWidth) (origin.2 * env.innerHeight) 0 colors inten { s with attractors := [] } := rfl
      rw [hd]
      refine ⟨rfl, ?_, rfl⟩
      have hp : (createEmergence env (origin.1 * env.innerWidth) (origin.2 * env.innerHeight) 0 colors inten { s with attractors := [] }).pending
          = s.pending ++ ([] : List PendingTimeout) := rfl
      unfold pendingSpawnTotal
      rw [hp, sum_spawnSizes_append]
      simp
    · have hd : celebrateSpawn env (mkRecipeCfg "harmony" 0 origin colors inten hr) s
          = createHarmony env (origin.1 * env.innerWidth) (origin.2 * env.innerHeight) 0 colors inten { s with attractors := [] } := rfl
      rw [hd]
      refine ⟨rfl, ?_, rfl⟩
      unfold pendingSpawnTotal
      rfl
    · have hd : celebrateSpawn env (mkRecipeCfg "helix" 0 origin colors inten hr) s
          = createHelix env (origin.1 * env.innerWidth) (origin.2 * env.innerHeight) 0 colors inten { s with attractors := [] } := rfl
      rw [hd]
      refine ⟨rfl, ?_, rfl⟩
      unfold pendingSpawnTotal
      rfl
    · have hd : celebrateSpawn env (mkRecipeCfg "bloom" 0 origin colors inten hr) s
          = createBloom env (origin.1 * env.innerWidth) (origin.2 * env.innerHeight) 0 colors inten { s with attractors := [] } := rfl
      rw [hd]
      refine ⟨rfl, ?_, rfl⟩
      unfold pendingSpawnTotal
      rfl
    · have hd : celebrateSpawn env (mkRecipeCfg "constellation" 0 origin colors inten hr) s
          = createConstellation env 0 colors { s with attractors := [] } := rfl
      rw [hd]
      refine ⟨rfl, ?_, rfl⟩
      unfold pendingSpawnTotal
      rfl
    · have hd : celebrateSpawn env (mkRecipeCfg "nebula" 0 origin colors inten hr) s
          = createNebula env (origin.1 * env.innerWidth) (origin.2 * env.innerHeight) 0 colors inten { s with attractors := [] } := rfl
      rw [hd]
      refine ⟨rfl, ?_, rfl⟩
      unfold pendingSpawnTotal
      rfl
  · have hd : celebrateSpawn env (mkRecipeCfg "vortex" 0 origin colors inten hr) s
        = createVortex env (origin.1 * env.innerWidth) (origin.2 * env.innerHeight) 0 colors inten { s with attractors := [] } := rfl
    rw [hd]
    rfl
  · have hd : celebrateSpawn env (mkRecipeCfg "supernova" 0 origin colors inten hr) s
        = createSupernova env (origin.1 * env.innerWidth) (origin.2 * env.innerHeight) 0 colors inten { s with attractors := [] } := rfl
    rw [hd]
    rfl
  · have hd : celebrateSpawn env (mkRecipeCfg "aurora" 0 origin colors inten hr) s
        = createAurora env 0 colors inten { s with attractors := [] } := rfl
    rw [hd]
    rfl
  · have hd : celebrateSpawn env (mkRecipeCfg "cascade" 0 origin colors inten hr) s
        = createCascade env 0 colors inten { s with attractors := [] } := rfl
    rw [hd]
    rfl
  · have hd : celebrateSpawn env (mkRecipeCfg "emergence" 0 origin colors inten hr) s
        = createEmergence env (origin.1 * env.innerWidth) (origin.2 * env.innerHeight) 0 colors inten { s with attractors := [] } := rfl
    rw [hd]
    rfl
  · have hd : celebrateSpawn env (mkRecipeCfg "resonance" 0 origin colors inten hr) s
        = createResonance env (origin.1 * env.innerWidth) (origin.2 * env.innerHeight) 0 colors inten hr { s with attractors := [] } := rfl
    rw [hd]
    rfl
  · exact nebulaDensity_fluid_length env (origin.1 * env.innerWidth) (origin.2 * env.innerHeight) inten { s with attractors := [] }

end Confetti

namespace Confetti

theorem resonanceJobs_spawnSum (x y d : ℚ) :
    ((resonanceJobs x y d).map (fun t => pendingSpawnSize t.job)).sum = 0 := rfl

theorem cascadeJobs_spawnSum (c : ℕ) (cols : List String) :
    ((cascadeJobs c cols).map (fun t => pendingSpawnSize t.job)).sum = c := by
  unfold cascadeJobs
  rw [List.map_map]
  have hc : ((fun t => pendingSpawnSize t.job) ∘ fun i : ℕ =>
      (⟨(i : ℚ) * (2000 / (c : ℚ)), Scheduled.cascadeSpawn cols⟩ : PendingTimeout))
      = fun _ : ℕ => 1 := rfl
  rw [hc, sum_map_one, List.length_range]

theorem emergenceJobs_spawnSum (x y : ℚ) (c : ℕ) (cols : List String) :
    ((emergenceJobs x y c cols).map (fun t => pendingSpawnSize t.job)).sum = c := by
  unfold emergenceJobs
  rw [List.map_map]
  have hc : ((fun t => pendingSpawnSize t.job) ∘ fun i : ℕ =>
      (⟨(i : ℚ) * (1500 / (c : ℚ)), Scheduled.emergenceSpawn x y i cols⟩ : PendingTimeout))
      = fun _ : ℕ => 1 := rfl
  rw [hc, sum_map_one, List.length_range]

end Confetti

namespace Confetti

/-- C2 counterexample: celebrating aurora with count 5 leaves 4 live
particles, not 5, immediately after celebrate returns (aurora spawns
`count / 4` particles in each of its four ribbons and schedules no
delayed spawns, so the total can never reach 5). -/
theorem C2_counterexample :
    (celebrate testEnv { type := "aurora", count := some 5 } initState).particles.length = 4 ∧
    (celebrate testEnv { type := "aurora", count := some 5 } initState).particles.length ≠ 5 := by
  refine ⟨by decide, by decide⟩

/-- C2 (amended): the synchronous portion of celebrate spawns exactly
`syncSpawnCount name count` particles — `count` for vortex, harmony and
nebula; `ceil(0.6 count)` for supernova; `4 * floor(count/4)` for aurora
and resonance; `3 * floor(count/3)` for orbit; `2 * floor(count/2)` for
helix; `32 * floor(count/32)` for bloom; `0` for cascade and emergence,
whose entire population is deferred — and schedules delayed callbacks
that will add exactly `delayedSpawnCount name count` more
(`ceil(0.4 count)` for supernova, `count` for cascade and emergence,
`0` otherwise); constellation spawns at most `count` (its golden-angle
positions are filtered against the viewport margin).  The last conjunct
verifies that each pending callback, when it fires, adds exactly its
accounted number of particles. -/
theorem C2_spawn_counts (env : MathEnv) (s : EngineState) (count : ℕ)
    (origin : ℚ × ℚ) (colors : List String) (inten : ℚ) (hr : Option ℚ)
    (h : freshIds s) :
    (∀ name ∈ (["vortex", "supernova", "aurora", "resonance", "orbit", "cascade",
        "emergence", "harmony", "helix", "bloom", "nebula"] : List String),
      (celebrateSpawn env (mkRecipeCfg name count origin colors inten hr) s).particles.length
          = s.particles.length + syncSpawnCount name count ∧
      pendingSpawnTotal (celebrateSpawn env (mkRecipeCfg name count origin colors inten hr) s)
          = pendingSpawnTotal s + delayedSpawnCount name count) ∧
    ((celebrateSpawn env (mkRecipeCfg "constellation" count origin colors inten hr) s).particles.length
        ≤ s.particles.length + count ∧
     pendingSpawnTotal (celebrateSpawn env (mkRecipeCfg "constellation" count origin colors inten hr) s)
        = pendingSpawnTotal s) ∧
    (∀ (job : Scheduled) (t : EngineState), freshIds t →
      (runScheduled env job t).particles.length
        = t.particles.length + pendingSpawnSize job) := by
  have h0 : freshIds { s with attractors := [] } := h
  refine ⟨?_, ?_, ?_⟩
  · intro name hn
    simp only [List.mem_cons, List.not_mem_nil, or_false] at hn
    rcases hn with he | he | he | he | he | he | he | he | he | he | he
    all_goals subst he
    · have hd : celebrateSpawn env (mkRecipeCfg "vortex" count origin colors inten hr) s
          = createVortex env (origin.1 * env.innerWidth) (origin.2 * env.innerHeight) count colors inten { s with attractors := [] } := rfl
      have e := createVortex_effect env (origin.1 * env.innerWidth) (origin.2 * env.innerHeight) count colors inten { s with attractors := [] } h0
      rcases e.particlesEq with ⟨l, hl, hlen⟩
      constructor
      · rw [hd, hl]
        simp [hlen, syncSpawnCount]
      · rw [hd]
        unfold pendingSpawnTotal
        rw [e.pendingEq, sum_spawnSizes_append]
        simp [pendingSpawnSize, delayedSpawnCount, cascadeJobs, emergenceJobs,
          List.map_map, Function.comp, sum_map_one]
    · have hd : celebrateSpawn env (mkRecipeCfg "supernova" count origin colors inten hr) s
          = createSupernova env (origin.1 * env.innerWidth) (origin.2 * env.innerHeight) count colors inten { s with attractors := [] } := rfl
      have e := createSupernova_effect env (origin.1 * env.innerWidth) (origin.2 * env.innerHeight) count colors inten { s with attractors := [] } h0
      rcases e.particlesEq with ⟨l, hl, hlen⟩
      constructor
      · rw [hd, hl]
        simp [hlen, syncSpawnCount]
      · rw [hd]
        unfold pendingSpawnTotal
        rw [e.pendingEq, sum_spawnSizes_append]
        simp [pendingSpawnSize, delayedSpawnCount, cascadeJobs, emergenceJobs,
          List.map_map, Function.comp, sum_map_one]
    · have hd : celebrateSpawn env (mkRecipeCfg "aurora" count origin colors inten hr) s
          = createAurora env count colors inten { s with attractors := [] } := rfl
      have e := createAurora_effect env count colors inten { s with attractors := [] } h0
      rcases e.particlesEq with ⟨l, hl, hlen⟩
      constructor
      · rw [hd, hl]
        simp [hlen, syncSpawnCount]
      · rw [hd]
        unfold pendingSpawnTotal
        rw [e.pendingEq, sum_spawnSizes_append]
        simp [pendingSpawnSize, delayedSpawnCount, cascadeJobs, emergenceJobs,
          List.map_map, Function.comp, sum_map_one]
    · have hd : celebrateSpawn env (mkRecipeCfg "resonance" count origin colors inten hr) s
          = createResonance env (origin.1 * env.innerWidth) (origin.2 * env.innerHeight) count colors inten hr { s with attractors := [] } := rfl
      have e := createResonance_effect env (origin.1 * env.innerWidth) (origin.2 * env.innerHeight) count colors inten hr { s with attractors := [] } h0
      rcases e.particlesEq with ⟨l, hl, hlen⟩
      constructor
      · rw [hd, hl]
        simp [hlen, syncSpawnCount]
      · rw [hd]
        unfold pendingSpawnTotal
        rw [e.pendingEq, sum_spawnSizes_append, resonanceJobs_spawnSum]
        simp [delayedSpawnCount]
    · have hd : celebrateSpawn env (mkRecipeCfg "orbit" count origin colors inten hr) s
          = createOrbit env (origin.1 * env.innerWidth) (origin.2 * env.innerHeight) count colors inten { s with attractors := [] } := rfl
      have e := createOrbit_effect env (origin.1 * env.innerWidth) (origin.2 * env.innerHeight) count colors inten { s with attractors := [] } h0
      rcases e.particlesEq with ⟨l, hl, hlen⟩
      constructor
      · rw [hd, hl]
        simp [hlen, syncSpawnCount]
      · rw [hd]
        unfold pendingSpawnTotal
        rw [e.pendingEq, sum_spawnSizes_append]
        simp [pendingSpawnSize, delayedSpawnCount, cascadeJobs, emergenceJobs,
          List.map_map, Function.comp, sum_map_one]
    · have hd : celebrateSpawn env (mkRecipeCfg "cascade" count origin colors inten hr) s
          = createCascade env count colors inten { s with attractors := [] } := rfl
      have e := createCascade_effect env count colors inten { s with attractors := [] } h0
      rcases e.particlesEq with ⟨l, hl, hlen⟩
      constructor
      · rw [hd, hl]
        simp [hlen, syncSpawnCount]
      · rw [hd]
        unfold pendingSpawnTotal
        rw [e.pendingEq, sum_spawnSizes_append, cascadeJobs_spawnSum]
        simp [delayedSpawnCount]
    · have hd : celebrateSpawn env (mkRecipeCfg "emergence" count origin colors inten hr) s
          = createEmergence env (origin.1 * env.innerWidth) (origin.2 * env.innerHeight) count colors inten { s with attractors := [] } := rfl
      have e := createEmergence_effect env (origin.1 * env.innerWidth) (origin.2 * env.innerHeight) count colors inten { s with attractors := [] } h0
      rcases e.particlesEq with ⟨l, hl, hlen⟩
      constructor
      · rw [hd, hl]
        simp [hlen, syncSpawnCount]
      · rw [hd]
        unfold pendingSpawnTotal
        rw [e.pendingEq, sum_spawnSizes_append, emergenceJobs_spawnSum]
        simp [delayedSpawnCount]
    · have hd : celebrateSpawn env (mkRecipeCfg "harmony" count origin colors inten hr) s
          = createHarmony env (origin.1 * env.innerWidth) (origin.2 * env.innerHeight) count colors inten { s with attractors := [] } := rfl
      have e := createHarmony_effect env (origin.1 * env.innerWidth) (origin.2 * env.innerHeight) count colors inten { s with attractors := [] } h0
      rcases e.particlesEq with ⟨l, hl, hlen⟩
      constructor
      · rw [hd, hl]
        simp [hlen, syncSpawnCount]
      · rw [hd]
        unfold pendingSpawnTotal
        rw [e.pendingEq, sum_spawnSizes_append]
        simp [pendingSpawnSize, delayedSpawnCount, cascadeJobs, emergenceJobs,
          List.map_map, Function.comp, sum_map_one]
    · have hd : celebrateSpawn env (mkRecipeCfg "helix" count origin colors inten hr) s
          = createHelix env (origin.1 * env.innerWidth) (origin.2 * env.innerHeight) count colors inten { s with attractors := [] } := rfl
      have e := createHelix_effect env (origin.1 * env.innerWidth) (origin.2 * env.innerHeight) count colors inten { s with attractors := [] } h0
      rcases e.particlesEq with ⟨l, hl, hlen⟩
      constructor
      · rw [hd, hl]
        simp [hlen, syncSpawnCount]
      · rw [hd]
        unfold pendingSpawnTotal
        rw [e.pendingEq, sum_spawnSizes_append]
        simp [pendingSpawnSize, delayedSpawnCount, cascadeJobs, emergenceJobs,
          List.map_map, Function.comp, sum_map_one]
    · have hd : celebrateSpawn env (mkRecipeCfg "bloom" count origin colors inten hr) s
          = createBloom env (origin.1 * env.innerWidth) (origin.2 * env.innerHeight) count colors inten { s with attractors := [] } := rfl
      have e := createBloom_effect env (origin.1 * env.innerWidth) (origin.2 * env.innerHeight) count colors inten { s with attractors := [] } h0
      rcases e.particlesEq with ⟨l, hl, hlen⟩
      constructor
      · rw [hd, hl]
        simp [hlen, syncSpawnCount]
      · rw [hd]
        unfold pendingSpawnTotal
        rw [e.pendingEq, sum_spawnSizes_append]
        simp [pendingSpawnSize, delayedSpawnCount, cascadeJobs, emergenceJobs,
          List.map_map, Function.comp, sum_map_one]
    · have hd : celebrateSpawn env (mkRecipeCfg "nebula" count origin colors inten hr) s
          = createNebula env (origin.1 * env.innerWidth) (origin.2 * env.innerHeight) count colors inten { s with attractors := [] } := rfl
      have e := createNebula_effect env (origin.1 * env.innerWidth) (origin.2 * env.innerHeight) count colors inten { s with attractors := [] } h0
      rcases e.particlesEq with ⟨l, hl, hlen⟩
      constructor
      · rw [hd, hl]
        simp [hlen, syncSpawnCount]
      · rw [hd]
        unfold pendingSpawnTotal
        rw [e.pendingEq, sum_spawnSizes_append]
        simp [pendingSpawnSize, delayedSpawnCount, cascadeJobs, emergenceJobs,
          List.map_map, Function.comp, sum_map_one]
  · have hd : celebrateSpawn env (mkRecipeCfg "constellation" count origin colors inten hr) s
        = createConstellation env count colors { s with attractors := [] } := rfl
    obtain ⟨m, hm, e⟩ := createConstellation_effect env count colors { s with attractors := [] } h0
    rcases e.particlesEq with ⟨l, hl, hlen⟩
    constructor
    · rw [hd, hl]
      simp [hlen]
      omega
    · rw [hd]
      unfold pendingSpawnTotal
      rw [e.pendingEq, sum_spawnSizes_append]
      simp
  · intro job t ht
    have e := runScheduled_effect env job t ht
    rcases e.particlesEq with ⟨l, hl, hlen⟩
    rw [hl]
    simp [hlen]

/-- Witness for C2 at a concrete input: aurora with count 10 on the
fresh engine state spawns 8 particles synchronously. -/
theorem C2_spawn_counts_witness :
    freshIds initState ∧
    (celebrateSpawn testEnv (mkRecipeCfg "aurora" 10 (1/2, 1/2) brandEmerald 1 none)
        initState).particles.length
      = initState.particles.length + syncSpawnCount "aurora" 10 := by
  have h : freshIds initState := by
    intro p hp
    simp [initState] at hp
  exact ⟨h, ((C2_spawn_counts testEnv initState 10 (1/2, 1/2) brandEmerald 1 none h).1
    "aurora" (by simp)).1⟩

end Confetti

namespace Confetti

/-- C7, counterexample to the frozen claim.  Two successive celebrate
calls with known recipe names ("helix" then "harmony") on a fresh
enabled engine: the first call leaves the engine idle (nothing alive,
no frame scheduled), so the second call runs one synchronous animate()
tick before returning; that tick repositions the three pull attractors
harmony just installed along their Lissajous curves (with a nonzero
sine oracle), so the attractor list when celebrate returns is NOT the
list the second call's recipe installed — the claim's attractor
exactness fails on idle engines. -/
theorem C7_counterexample :
    ("helix" : String) ∈ recipeNames ∧ ("harmony" : String) ∈ recipeNames ∧
    isEnabled initState = true ∧
    (celebrate ctrEnv (mkRecipeCfg "harmony" 1 (1/2, 1/2) brandEmerald 1 none)
        (celebrate ctrEnv (mkRecipeCfg "helix" 0 (1/2, 1/2) brandEmerald 1 none)
          initState)).attractors
      ≠ recipeAttractors ctrEnv (mkRecipeCfg "harmony" 1 (1/2, 1/2) brandEmerald 1 none) := by
  refine ⟨by decide, by decide, by decide, by decide⟩

/-- C7, amended: for two successive celebrate calls with known recipe
names on an enabled engine, the second call's spawning only appends
particles (every particle present after the first call is still in the
map after the second call's switch runs) and installs exactly its
recipe's attractor list, the first call's attractors being discarded
wholesale.  When an animation frame is already scheduled at the second
call, celebrate returns that spawn state unchanged, so the original
claim holds there; when the engine is idle, the particle map is
necessarily empty at the second call, and celebrate additionally runs
one synchronous animation tick on the spawn state before returning —
the tick that can reposition the just-installed Lissajous attractors. -/
theorem C7_additive_particles_attractors_replaced (env : MathEnv)
    (cfg1 cfg2 : CelebrationConfig) (s : EngineState) (h : freshIds s)
    (hE : isEnabled s = true)
    (hk1 : cfg1.type ∈ recipeNames) (hk2 : cfg2.type ∈ recipeNames) :
    (∀ p ∈ (celebrate env cfg1 s).particles,
        p ∈ (celebrateSpawn env cfg2 (celebrate env cfg1 s)).particles) ∧
    (celebrateSpawn env cfg2 (celebrate env cfg1 s)).attractors
      = recipeAttractors env cfg2 ∧
    ((celebrate env cfg1 s).animationId ≠ none →
      celebrate env cfg2 (celebrate env cfg1 s)
        = celebrateSpawn env cfg2 (celebrate env cfg1 s)) ∧
    ((celebrate env cfg1 s).animationId = none →
      (celebrate env cfg1 s).particles = [] ∧
      celebrate env cfg2 (celebrate env cfg1 s)
        = animateStep env (celebrateSpawn env cfg2 (celebrate env cfg1 s))) := by
  obtain ⟨⟨l1, hl1⟩, hAtt1, hAni1, hEn1, hPrm1, hF1⟩ := celebrateSpawn_known env cfg1 s h hk1
  have hc1 : celebrate env cfg1 s
      = (if (celebrateSpawn env cfg1 s).animationId = none
          then animateStep env (celebrateSpawn env cfg1 s)
          else celebrateSpawn env cfg1 s) := by
    unfold celebrate
    rw [if_pos hE]
  have hF1x : freshIds (celebrate env cfg1 s) := by
    rw [hc1]
    split
    · exact animateStep_fresh env _ hF1
    · exact hF1
  have hEn1x : (celebrate env cfg1 s).enabled = s.enabled ∧
      (celebrate env cfg1 s).prefersReducedMotion = s.prefersReducedMotion := by
    rw [hc1]
    split
    · exact ⟨(animateStep_frame env _).2.1.trans hEn1,
        (animateStep_frame env _).2.2.trans hPrm1⟩
    · exact ⟨hEn1, hPrm1⟩
  have hE1 : isEnabled (celebrate env cfg1 s) = true := by
    unfold isEnabled
    rw [hEn1x.1, hEn1x.2]
    exact hE
  obtain ⟨⟨l2, hl2⟩, hAtt2, hAni2, hEn2, hPrm2, hF2⟩ :=
    celebrateSpawn_known env cfg2 (celebrate env cfg1 s) hF1x hk2
  have hc2 : celebrate env cfg2 (celebrate env cfg1 s)
      = (if (celebrateSpawn env cfg2 (celebrate env cfg1 s)).animationId = none
          then animateStep env (celebrateSpawn env cfg2 (celebrate env cfg1 s))
          else celebrateSpawn env cfg2 (celebrate env cfg1 s)) := by
    conv_lhs => rw [show celebrate env cfg2 (celebrate env cfg1 s)
      = (if isEnabled (celebrate env cfg1 s) = true
          then (if (celebrateSpawn env cfg2 (celebrate env cfg1 s)).animationId = none
                then animateStep env (celebrateSpawn env cfg2 (celebrate env cfg1 s))
                else celebrateSpawn env cfg2 (celebrate env cfg1 s))
          else celebrate env cfg1 s) from rfl]
    rw [if_pos hE1]
  refine ⟨?_, hAtt2, ?_, ?_⟩
  · intro p hp
    rw [hl2]
    exact List.mem_append_left _ hp
  · intro hA
    rw [hc2, if_neg (by rw [hAni2]; exact hA)]
  · intro hI
    constructor
    · rw [hc1] at hI ⊢
      revert hI
      split
      · intro hI
        rcases animateStep_run_or_stop env (celebrateSpawn env cfg1 s) with hr | hr
        · rw [hr] at hI
          exact absurd hI (by simp)
        · exact hr.2
      · rename_i hne
        intro hI
        rw [hAni1] at hne
        rw [hAni1] at hI
        exact absurd hI hne
    · rw [hc2, if_pos (by rw [hAni2]; exact hI)]

/-- Witness for C7 at a concrete input: on an engine whose animation
frame is already scheduled, a vortex celebration followed by an orbit
celebration returns the spawn state itself (running regime), whose
attractors are exactly the orbit triple. -/
theorem C7_witness :
    celebrate testEnv (mkRecipeCfg "orbit" 1 (1/2, 1/2) brandEmerald 1 none)
      (celebrate testEnv (mkRecipeCfg "vortex" 1 (1/2, 1/2) brandEmerald 1 none)
        dyingState)
      = celebrateSpawn testEnv (mkRecipeCfg "orbit" 1 (1/2, 1/2) brandEmerald 1 none)
        (celebrate testEnv (mkRecipeCfg "vortex" 1 (1/2, 1/2) brandEmerald 1 none)
          dyingState) ∧
    (celebrateSpawn testEnv (mkRecipeCfg "orbit" 1 (1/2, 1/2) brandEmerald 1 none)
      (celebrate testEnv (mkRecipeCfg "vortex" 1 (1/2, 1/2) brandEmerald 1 none)
        dyingState)).attractors
      = recipeAttractors testEnv (mkRecipeCfg "orbit" 1 (1/2, 1/2) brandEmerald 1 none) := by
  have h : freshIds dyingState := by
    intro p hp
    simp [dyingState, initState] at hp
    rw [hp]
    decide
  have main := C7_additive_particles_attractors_replaced testEnv
    (mkRecipeCfg "vortex" 1 (1/2, 1/2) brandEmerald 1 none)
    (mkRecipeCfg "orbit" 1 (1/2, 1/2) brandEmerald 1 none)
    dyingState h (by decide) (by decide) (by decide)
  exact ⟨main.2.2.1 (by decide), main.2.1⟩

end Confetti

namespace Confetti

/-- C1: evaluation of the code at the failing input.  A supernova
celebration with count 10 schedules its secondary-ring callback with a
100 ms delay; the source never stores the `setTimeout` handle, so
`clear()` — which does cancel the scheduled animation frame — leaves
that delayed spawn callback pending (the model keeps it in `pending`,
exactly as the browser timer queue does).  When the callback later
fires it adds 4 particles to the already-cleared session, violating the
cancellation requirement of the spec. -/
theorem C1_clear_keeps_delayed_spawns :
    (clear (celebrate testEnv { type := "supernova", count := some 10 } initState)).particles
      = [] ∧
    (clear (celebrate testEnv { type := "supernova", count := some 10 } initState)).attractors
      = [] ∧
    (clear (celebrate testEnv { type := "supernova", count := some 10 } initState)).animationId
      = none ∧
    (clear (celebrate testEnv { type := "supernova", count := some 10 } initState)).pending.length
      = 1 ∧
    ((clear (celebrate testEnv { type := "supernova", count := some 10 } initState)).pending.map
      (fun t => (runScheduled testEnv t.job
        (clear (celebrate testEnv { type := "supernova", count := some 10 } initState))).particles.length))
      = [4] := by
  refine ⟨by decide, by decide, by decide, by decide, by decide⟩

end Confetti

namespace Confetti

/-- Witness for C9 at a concrete input: a zero-count vortex celebration
leaves the particle map of the fresh engine state unchanged. -/
theorem C9_zero_count_witness :
    (celebrateSpawn testEnv (mkRecipeCfg "vortex" 0 (1/2, 1/2) brandEmerald 1 none)
        initState).particles = initState.particles :=
  ((C9_zero_count testEnv initState (1/2, 1/2) brandEmerald 1 none).1 "vortex"
    (by simp [recipeNames])).1

/-- Witness for C4 at a concrete input: the opacity computed for the
dying particle during the tick never exceeds 1. -/
theorem C4_opacity_bounds_witness :
    (updateParticle testEnv (preTick testEnv dyingState) 1 dyingParticle).opacity ≤ 1 :=
  (C4_opacity_bounds testEnv dyingState).2
    (updateParticle testEnv (preTick testEnv dyingState) 1 dyingParticle)
    (by
      rw [show tickUpdatedParticles testEnv (preTick testEnv dyingState)
          = [updateParticle testEnv (preTick testEnv dyingState) 1 dyingParticle] from rfl]
      exact List.mem_singleton.mpr rfl)

end Confetti
